import Mathlib

/-!
# ROI-DSL front end: shallow embedding of `compiler/parser.py` and `compiler/validator.py`

The parser (`ROIDSLParser`) and validator (`ROIValidator`) are embedded as
executable Lean functions over `List Char` / `String`.  Modelling decisions:

* Python strings are Lean `String`s; the character-level work mirrors the
  regexes of the source, specialised to the ASCII inputs the language uses
  (`\w` is `[A-Za-z0-9_]`, `\s` is the ASCII whitespace class, `[A-Z]` is the
  ASCII uppercase range).
* Python `float` values attached to metrics are modelled as exact rationals
  (`ℚ`); the only numeric literals involved are decimal strings of digits and
  dots, and no claim depends on IEEE rounding.  The decimal rendering of a
  float inside one warning message is modelled by `toString` on `ℚ`; that
  message is proved unreachable for parser-produced ASTs.
* Exceptions are explicit: `parse` returns `Except PyError _` where `PyError`
  distinguishes Python's `SyntaxError` and `ValueError`; the validator, whose
  only partial operations are `name[0]` string indexings, is `Option`-valued
  (`none` models an `IndexError` escaping `validate`).
* Python `dict` fields of the AST are association lists with
  update-in-place-or-append semantics, matching insertion order.
-/

namespace ROIDSL

/-- ASCII model of Python's `str.strip()` whitespace class. -/
def isPySpace (c : Char) : Bool :=
  c = ' ' || c = '\t' || c = '\n' || c = '\r' || c = Char.ofNat 11 || c = Char.ofNat 12

/-- ASCII model of the regex class `\w`. -/
def isWordChar (c : Char) : Bool :=
  c.isAlpha || c.isDigit || c = '_'

/-- Characters allowed by the regex class `[\d.]`. -/
def isNumChar (c : Char) : Bool :=
  c.isDigit || c = '.'

/-- `text.split('\n')`: split a character list at newline characters. -/
def splitOnNl : List Char → List (List Char)
  | [] => [[]]
  | c :: cs =>
    match splitOnNl cs with
    | [] => [[c]]
    | h :: t => if c = '\n' then [] :: h :: t else (c :: h) :: t

/-- `line.strip()`: remove leading and trailing whitespace. -/
def pyStrip (cs : List Char) : List Char :=
  ((cs.dropWhile isPySpace).reverse.dropWhile isPySpace).reverse

/-- The preprocessed line list of `ROIDSLParser.__init__`:
`[line.strip() for line in text.split('\n') if line.strip()]`. -/
def pyLines (cs : List Char) : List (List Char) :=
  ((splitOnNl cs).map pyStrip).filter (fun l => l ≠ [])

/-- Match a literal string at the head of the input, returning the rest. -/
def stripLit : List Char → List Char → Option (List Char)
  | [], cs => some cs
  | _, [] => none
  | l :: ls, c :: cs => if c = l then stripLit ls cs else none

/-- Matcher for the regex fragment `\s+(\w+)\s*:\s*"([^"]+)"`
(the shared tail of the `PERSONA`/`GOAL`/fact-table patterns),
returning the identifier and the quoted text. -/
def matchNameQuoted (cs : List Char) : Option (List Char × List Char) :=
  match cs with
  | [] => none
  | c :: _ =>
    if isPySpace c then
      let cs1 := cs.dropWhile isPySpace
      let name := cs1.takeWhile isWordChar
      if name = [] then none
      else
        match (cs1.dropWhile isWordChar).dropWhile isPySpace with
        | ':' :: cs3 =>
          match cs3.dropWhile isPySpace with
          | '"' :: cs5 =>
            let v := cs5.takeWhile (fun d => d ≠ '"')
            if v = [] then none
            else if cs5.dropWhile (fun d => d ≠ '"') = [] then none
            else some (name, v)
          | _ => none
        | _ => none
    else none

/-- Matcher for `(\w+)\s*:\s*"([^"]+)"` (the `SEO_`/`CONTACT_` tail: no
whitespace between the prefix and the captured field name). -/
def matchNameQuotedNoWs (cs : List Char) : Option (List Char × List Char) :=
  let name := cs.takeWhile isWordChar
  if name = [] then none
  else
    match (cs.dropWhile isWordChar).dropWhile isPySpace with
    | ':' :: cs3 =>
      match cs3.dropWhile isPySpace with
      | '"' :: cs5 =>
        let v := cs5.takeWhile (fun d => d ≠ '"')
        if v = [] then none
        else if cs5.dropWhile (fun d => d ≠ '"') = [] then none
        else some (name, v)
      | _ => none
    | _ => none

/-- Matcher for `\s*:\s*"([^"]+)"` (the `SK_TAG` tail). -/
def matchQuotedOnly (cs : List Char) : Option (List Char) :=
  match cs.dropWhile isPySpace with
  | ':' :: cs3 =>
    match cs3.dropWhile isPySpace with
    | '"' :: cs5 =>
      let v := cs5.takeWhile (fun d => d ≠ '"')
      if v = [] then none
      else if cs5.dropWhile (fun d => d ≠ '"') = [] then none
      else some v
    | _ => none
  | _ => none

/-- Matcher for `\s+(\w+)\s*:\s*([\d.]+)` (the `METRIC` tail),
returning the identifier and the raw digits-and-dots numeral. -/
def matchMetricNum (cs : List Char) : Option (List Char × List Char) :=
  match cs with
  | [] => none
  | c :: _ =>
    if isPySpace c then
      let cs1 := cs.dropWhile isPySpace
      let name := cs1.takeWhile isWordChar
      if name = [] then none
      else
        match (cs1.dropWhile isWordChar).dropWhile isPySpace with
        | ':' :: cs3 =>
          let cs4 := cs3.dropWhile isPySpace
          let num := cs4.takeWhile isNumChar
          if num = [] then none else some (name, num)
        | _ => none
    else none

/-- Matcher for `\s+(\w+)` (the `OUTPUT` tail). -/
def matchOutput (cs : List Char) : Option (List Char) :=
  match cs with
  | [] => none
  | c :: _ =>
    if isPySpace c then
      let cs1 := cs.dropWhile isPySpace
      let name := cs1.takeWhile isWordChar
      if name = [] then none else some name
    else none

/-- Matcher for the fragment `\s+THEN\s+(.+)` of the `WHEN` pattern at a given
position: a nonempty whitespace run, the literal `THEN`, a nonempty whitespace
run, then the greedy remainder (backtracking one whitespace character into the
final group when the remainder would otherwise be empty). -/
def matchThenRest (cs : List Char) : Option (List Char) :=
  let w := cs.takeWhile isPySpace
  if w = [] then none
  else
    match stripLit ['T', 'H', 'E', 'N'] (cs.dropWhile isPySpace) with
    | none => none
    | some r2 =>
      let w2 := r2.takeWhile isPySpace
      let r3 := r2.dropWhile isPySpace
      if w2 = [] then none
      else if r3 ≠ [] then some r3
      else if 2 ≤ w2.length then some (w2.drop (w2.length - 1))
      else none

/-- Lazy search of `(.+?)\s+THEN\s+(.+)`: grow the first group one character at
a time (shortest match first), as Python's lazy quantifier does.  `acc` holds
the reversed candidate first group. -/
def whenSearch : List Char → List Char → Option (List Char × List Char)
  | _, [] => none
  | acc, c :: rest =>
    match matchThenRest rest with
    | some act => some ((c :: acc).reverse, act)
    | none => whenSearch (c :: acc) rest

/-- Backtracking over the greedy `WHEN\s+` whitespace run: longest run first,
handing characters back to the lazy first group on failure. -/
def whenTryWs : Nat → List Char → Option (List Char × List Char)
  | 0, _ => none
  | k + 1, cs =>
    match whenSearch [] (cs.drop (k + 1)) with
    | some r => some r
    | none => whenTryWs k cs

/-- Matcher for the tail of `WHEN\s+(.+?)\s+THEN\s+(.+)`, returning the raw
condition and action groups. -/
def matchWhen (cs : List Char) : Option (List Char × List Char) :=
  let w := cs.takeWhile isPySpace
  if w = [] then none else whenTryWs w.length cs

/-- `int` value of a digit run (digits only). -/
def natOfDigits (cs : List Char) : Nat :=
  cs.foldl (fun a c => a * 10 + (c.toNat - 48)) 0

/-- Fuel-based `Nat.gcd` (structurally recursive, so that rational values
built from parsed numerals reduce inside the kernel). -/
def gcdF : Nat → Nat → Nat → Nat
  | 0, _, n => n
  | f + 1, m, n => if m = 0 then n else gcdF f (n % m) m

theorem gcdF_eq (f : Nat) : ∀ m n, m < f → gcdF f m n = Nat.gcd m n := by
  induction f with
  | zero => intro m n h; omega
  | succ f ih =>
    intro m n h
    by_cases hm : m = 0
    · subst hm; simp [gcdF, Nat.gcd]
    · have hlt : n % m < m := Nat.mod_lt n (Nat.pos_of_ne_zero hm)
      rw [gcdF, if_neg hm, ih (n % m) m (by omega)]
      exact (Nat.gcd_rec m n).symm

/-- The exact rational value `(i * 10^k + f) / 10^k` of a decimal numeral with
integer part `i`, fractional digits worth `f`, and `k` fractional digits,
constructed in lowest terms so that it is a kernel-normal form. -/
def decimalRat (i f k : Nat) : ℚ :=
  Rat.mk'
    (Int.ofNat ((i * 10 ^ k + f) / gcdF (i * 10 ^ k + f + 1) (i * 10 ^ k + f) (10 ^ k)))
    (10 ^ k / gcdF (i * 10 ^ k + f + 1) (i * 10 ^ k + f) (10 ^ k))
    (by
      rw [gcdF_eq _ _ _ (Nat.lt_succ_self _)]
      have hd : 0 < 10 ^ k := Nat.pos_pow_of_pos k (by omega)
      have hgpos : 0 < Nat.gcd (i * 10 ^ k + f) (10 ^ k) :=
        Nat.gcd_pos_of_pos_right _ hd
      have : 0 < 10 ^ k / Nat.gcd (i * 10 ^ k + f) (10 ^ k) :=
        Nat.div_pos (Nat.le_of_dvd hd (Nat.gcd_dvd_right _ _)) hgpos
      omega)
    (by
      rw [gcdF_eq _ _ _ (Nat.lt_succ_self _)]
      have hd : 0 < 10 ^ k := Nat.pos_pow_of_pos k (by omega)
      exact Nat.coprime_div_gcd_div_gcd (m := i * 10 ^ k + f) (n := 10 ^ k)
        (Nat.gcd_pos_of_pos_right _ hd))

theorem decimalRat_eq (i f k : Nat) :
    decimalRat i f k = ((i * 10 ^ k + f : ℕ) : ℚ) / ((10 ^ k : ℕ) : ℚ) := by
  have hg : gcdF (i * 10 ^ k + f + 1) (i * 10 ^ k + f) (10 ^ k) =
      Nat.gcd (i * 10 ^ k + f) (10 ^ k) := gcdF_eq _ _ _ (Nat.lt_succ_self _)
  have hd : 0 < 10 ^ k := Nat.pos_pow_of_pos k (by omega)
  have hgpos : 0 < Nat.gcd (i * 10 ^ k + f) (10 ^ k) := Nat.gcd_pos_of_pos_right _ hd
  rw [decimalRat, Rat.mk'_eq_divInt, Rat.divInt_eq_div]
  simp only [hg, Int.ofNat_eq_coe, Int.cast_natCast]
  rw [Nat.cast_div (Nat.gcd_dvd_left _ _) (by exact_mod_cast hgpos.ne.symm),
    Nat.cast_div (Nat.gcd_dvd_right _ _) (by exact_mod_cast hgpos.ne.symm),
    div_div_div_cancel_right₀]
  exact_mod_cast hgpos.ne.symm

/-- Python `float()` applied to a string drawn from `[\d.]+`: it succeeds
exactly when the string has at least one digit and at most one dot, and the
value is the exact decimal it denotes (modelled in `ℚ`). -/
def pyFloatOfNum (cs : List Char) : Option ℚ :=
  if cs.count '.' ≤ 1 && cs.any Char.isDigit then
    let intPart := cs.takeWhile (fun c => c ≠ '.')
    let fracPart := (cs.dropWhile (fun c => c ≠ '.')).drop 1
    some (decimalRat (natOfDigits intPart) (natOfDigits fracPart) fracPart.length)
  else none

/-! ## AST node classes (`parser.py` dataclasses) -/

structure PersonaNode where
  name : String
  value : String
  deriving DecidableEq

structure GoalNode where
  name : String
  value : String
  deriving DecidableEq

structure MetricNode where
  name : String
  value : ℚ
  deriving DecidableEq

structure RMetricNode where
  name : String
  expr : String
  deriving DecidableEq

structure TriggerNode where
  condition : String
  action : String
  deriving DecidableEq

structure VariantNode where
  type : String
  value : String
  deriving DecidableEq

/-- Root AST node for a ROI-DSL file (`ROIDSLAST`).  Python `dict` fields are
association lists in insertion order. -/
structure ROIDSLAST where
  persona : Option PersonaNode := none
  personas : List PersonaNode := []
  goals : List GoalNode := []
  metrics : List MetricNode := []
  rmetrics : List RMetricNode := []
  triggers : List TriggerNode := []
  variants : List VariantNode := []
  credentials : List (String × String) := []
  case_studies : List (String × String) := []
  services : List (String × String) := []
  training : List (String × String) := []
  vroi_inputs : List (String × String) := []
  vroi_outputs : List (String × String) := []
  stats : List (String × String) := []
  microtraining : List (String × String) := []
  seo : List (String × String) := []
  contact : List (String × String) := []
  sk_tags : List String := []
  output : Option String := none
  deriving DecidableEq

/-- `d[key] = value` on a Python dict: overwrite an existing key in place,
else append, preserving insertion order. -/
def dictSet (d : List (String × String)) (k v : String) : List (String × String) :=
  if d.any (fun p => p.1 = k) then d.map (fun p => if p.1 = k then (k, v) else p)
  else d ++ [(k, v)]

/-- The two Python exception kinds `parse` can raise: `SyntaxError` (all
grammar failures) and `ValueError` (escaping from `float()`). -/
inductive PyError where
  | synErr (msg : String)
  | valErr (msg : String)
  deriving DecidableEq

/-! ## Parser (`ROIDSLParser`) -/

/-- The closed `OUTPUT` vocabulary (`valid_outputs` in `_parse_output`). -/
def validOutputs : List String :=
  ["SMS_CAMPAIGN", "AGENT", "RMetrics", "vROI", "MintSite", "SK_SKILL"]

def chars (s : String) : List Char := s.data

/-- `_parse_persona`: regex `PERSONA\s+(\w+)\s*:\s*"([^"]+)"`. -/
def parsePersona (line : List Char) (a : ROIDSLAST) : Except PyError ROIDSLAST :=
  match stripLit (chars "PERSONA") line >>= matchNameQuoted with
  | none => .error (.synErr ("Invalid PERSONA syntax: " ++ ⟨line⟩))
  | some (n, v) =>
    let node : PersonaNode := ⟨⟨n⟩, ⟨v⟩⟩
    .ok { a with
          persona := match a.persona with | none => some node | some p => some p,
          personas := a.personas ++ [node] }

/-- `_parse_goal`: regex `GOAL\s+(\w+)\s*:\s*"([^"]+)"`. -/
def parseGoal (line : List Char) (a : ROIDSLAST) : Except PyError ROIDSLAST :=
  match stripLit (chars "GOAL") line >>= matchNameQuoted with
  | none => .error (.synErr ("Invalid GOAL syntax: " ++ ⟨line⟩))
  | some (n, v) => .ok { a with goals := a.goals ++ [⟨⟨n⟩, ⟨v⟩⟩] }

/-- `_parse_metric`: regex `METRIC\s+(\w+)\s*:\s*([\d.]+)`, then Python
`float()` on the captured numeral (which raises `ValueError` when the
digits-and-dots run is not a float literal). -/
def parseMetric (line : List Char) (a : ROIDSLAST) : Except PyError ROIDSLAST :=
  match stripLit (chars "METRIC") line >>= matchMetricNum with
  | none => .error (.synErr ("Invalid METRIC syntax: " ++ ⟨line⟩))
  | some (n, num) =>
    match pyFloatOfNum num with
    | none => .error (.valErr ("could not convert string to float: '" ++ ⟨num⟩ ++ "'"))
    | some q => .ok { a with metrics := a.metrics ++ [⟨⟨n⟩, q⟩] }

/-- `_parse_rmetric`: regex `RMetric\s+(\w+)\s*:\s*"([^"]+)"`. -/
def parseRMetric (line : List Char) (a : ROIDSLAST) : Except PyError ROIDSLAST :=
  match stripLit (chars "RMetric") line >>= matchNameQuoted with
  | none => .error (.synErr ("Invalid RMetric syntax: " ++ ⟨line⟩))
  | some (n, e) => .ok { a with rmetrics := a.rmetrics ++ [⟨⟨n⟩, ⟨e⟩⟩] }

/-- `_parse_trigger`: regex `WHEN\s+(.+?)\s+THEN\s+(.+)`, both groups then
`.strip()`ped. -/
def parseTrigger (line : List Char) (a : ROIDSLAST) : Except PyError ROIDSLAST :=
  match stripLit (chars "WHEN") line >>= matchWhen with
  | none => .error (.synErr ("Invalid WHEN/THEN syntax: " ++ ⟨line⟩))
  | some (c, act) =>
    .ok { a with triggers := a.triggers ++ [⟨⟨pyStrip c⟩, ⟨pyStrip act⟩⟩] }

/-- `_parse_variant`: regex `VARIANT\s+(\w+)\s*:\s*"([^"]+)"`. -/
def parseVariant (line : List Char) (a : ROIDSLAST) : Except PyError ROIDSLAST :=
  match stripLit (chars "VARIANT") line >>= matchNameQuoted with
  | none => .error (.synErr ("Invalid VARIANT syntax: " ++ ⟨line⟩))
  | some (t, v) => .ok { a with variants := a.variants ++ [⟨⟨t⟩, ⟨v⟩⟩] }

/-- Named field updates for the keyed fact tables (kept as definitions so
unfoldings of `parseStep` stay small). -/
def setCredentials (a : ROIDSLAST) (d : List (String × String)) : ROIDSLAST :=
  { a with credentials := d }

def setCaseStudies (a : ROIDSLAST) (d : List (String × String)) : ROIDSLAST :=
  { a with case_studies := d }

def setServices (a : ROIDSLAST) (d : List (String × String)) : ROIDSLAST :=
  { a with services := d }

def setTraining (a : ROIDSLAST) (d : List (String × String)) : ROIDSLAST :=
  { a with training := d }

def setVroiInputs (a : ROIDSLAST) (d : List (String × String)) : ROIDSLAST :=
  { a with vroi_inputs := d }

def setVroiOutputs (a : ROIDSLAST) (d : List (String × String)) : ROIDSLAST :=
  { a with vroi_outputs := d }

def setStats (a : ROIDSLAST) (d : List (String × String)) : ROIDSLAST :=
  { a with stats := d }

def setMicrotraining (a : ROIDSLAST) (d : List (String × String)) : ROIDSLAST :=
  { a with microtraining := d }

def setSeo (a : ROIDSLAST) (d : List (String × String)) : ROIDSLAST :=
  { a with seo := d }

def setContact (a : ROIDSLAST) (d : List (String × String)) : ROIDSLAST :=
  { a with contact := d }

/-- Shared shape of the eight keyed fact-table extractors
(`_parse_credential`, …, `_parse_microtraining`): regex
`KEY\s+(\w+)\s*:\s*"([^"]+)"`, inserting into the given table. -/
def parseFactTable (key : String) (errName : String)
    (get : ROIDSLAST → List (String × String))
    (set : ROIDSLAST → List (String × String) → ROIDSLAST)
    (line : List Char) (a : ROIDSLAST) : Except PyError ROIDSLAST :=
  match stripLit (chars key) line >>= matchNameQuoted with
  | none => .error (.synErr ("Invalid " ++ errName ++ " syntax: " ++ ⟨line⟩))
  | some (k, v) => .ok (set a (dictSet (get a) ⟨k⟩ ⟨v⟩))

/-- `_parse_seo` / `_parse_contact`: regex `SEO_(\w+)\s*:\s*"([^"]+)"` (and the
`CONTACT_` analogue) — no whitespace between the prefix and the field name. -/
def parsePrefixTable (key : String) (errName : String)
    (get : ROIDSLAST → List (String × String))
    (set : ROIDSLAST → List (String × String) → ROIDSLAST)
    (line : List Char) (a : ROIDSLAST) : Except PyError ROIDSLAST :=
  match stripLit (chars key) line >>= matchNameQuotedNoWs with
  | none => .error (.synErr ("Invalid " ++ errName ++ " syntax: " ++ ⟨line⟩))
  | some (k, v) => .ok (set a (dictSet (get a) ⟨k⟩ ⟨v⟩))

/-- `_parse_sk_tag`: regex `SK_TAG\s*:\s*"([^"]+)"`. -/
def parseSkTag (line : List Char) (a : ROIDSLAST) : Except PyError ROIDSLAST :=
  match stripLit (chars "SK_TAG") line >>= matchQuotedOnly with
  | none => .error (.synErr ("Invalid SK_TAG syntax: " ++ ⟨line⟩))
  | some v => .ok { a with sk_tags := a.sk_tags ++ [⟨v⟩] }

/-- `_parse_output`: regex `OUTPUT\s+(\w+)`, then the closed-set check. -/
def parseOutput (line : List Char) (a : ROIDSLAST) : Except PyError ROIDSLAST :=
  match stripLit (chars "OUTPUT") line >>= matchOutput with
  | none => .error (.synErr ("Invalid OUTPUT syntax: " ++ ⟨line⟩))
  | some t =>
    if (⟨t⟩ : String) ∈ validOutputs then .ok { a with output := some ⟨t⟩ }
    else
      .error (.synErr ("Invalid OUTPUT type '" ++ ⟨t⟩ ++
        "'. Must be one of: SMS_CAMPAIGN, AGENT, RMetrics, vROI, MintSite, SK_SKILL"))

def startsWith (l : List Char) (p : String) : Bool :=
  (chars p).isPrefixOf l

/-- One iteration of the `parse` loop: the comment skip followed by the
prefix-dispatch chain, in source order; the final `else` raises the
unknown-syntax error carrying `self.current_line + 1` (the 0-based position
`i` among the retained preprocessed lines, plus one). -/
def parseStep (i : Nat) (line : List Char) (a : ROIDSLAST) : Except PyError ROIDSLAST :=
  if startsWith line "#" || startsWith line "//" then .ok a
  else if startsWith line "PERSONA" then parsePersona line a
  else if startsWith line "GOAL" then parseGoal line a
  else if startsWith line "METRIC" && !(startsWith line "RMetric") then parseMetric line a
  else if startsWith line "RMetric" then parseRMetric line a
  else if startsWith line "WHEN" then parseTrigger line a
  else if startsWith line "VARIANT" then parseVariant line a
  else if startsWith line "CREDENTIAL" then
    parseFactTable "CREDENTIAL" "CREDENTIAL" (·.credentials) setCredentials line a
  else if startsWith line "CASE_STUDY" then
    parseFactTable "CASE_STUDY" "CASE_STUDY" (·.case_studies) setCaseStudies line a
  else if startsWith line "SERVICE" then
    parseFactTable "SERVICE" "SERVICE" (·.services) setServices line a
  else if startsWith line "TRAINING" then
    parseFactTable "TRAINING" "TRAINING" (·.training) setTraining line a
  else if startsWith line "VROI_INPUT" then
    parseFactTable "VROI_INPUT" "VROI_INPUT" (·.vroi_inputs) setVroiInputs line a
  else if startsWith line "VROI_OUTPUT" then
    parseFactTable "VROI_OUTPUT" "VROI_OUTPUT" (·.vroi_outputs) setVroiOutputs line a
  else if startsWith line "STAT" then
    parseFactTable "STAT" "STAT" (·.stats) setStats line a
  else if startsWith line "MICROTRAINING" then
    parseFactTable "MICROTRAINING" "MICROTRAINING" (·.microtraining) setMicrotraining line a
  else if startsWith line "SEO_" then
    parsePrefixTable "SEO_" "SEO" (·.seo) setSeo line a
  else if startsWith line "CONTACT_" then
    parsePrefixTable "CONTACT_" "CONTACT" (·.contact) setContact line a
  else if startsWith line "SK_TAG" then parseSkTag line a
  else if startsWith line "OUTPUT" then parseOutput line a
  else .error (.synErr ("Unknown syntax at line " ++ Nat.repr (i + 1) ++ ": " ++ ⟨line⟩))

/-- The `while` loop of `parse`, threading the line index and the accumulated
AST, stopping at the first raised exception. -/
def parseGo : Nat → List (List Char) → ROIDSLAST → Except PyError ROIDSLAST
  | _, [], a => .ok a
  | i, l :: ls, a =>
    match parseStep i l a with
    | .error e => .error e
    | .ok a' => parseGo (i + 1) ls a'

/-- `ROIDSLParser(text).parse()`: preprocess into stripped non-blank lines and
run the dispatch loop on an initially empty AST. -/
def parse (text : String) : Except PyError ROIDSLAST :=
  parseGo 0 (pyLines (chars text)) {}

/-! ## Validator (`ROIValidator`)

The validator's mutable `self` is the state `VState`; each `_validate_*`
method maps the state to a new state, appending to `errors`/`warnings`.
The only operations that can raise are the `name[0]` indexings (an
`IndexError` on an empty name), modelled by `Option`. -/

structure VState where
  ast : ROIDSLAST
  errors : List String
  warnings : List String
  deriving DecidableEq

/-- `s[0]` on a Python string: the first character, or an `IndexError`. -/
def pyIdx0 (s : String) : Option Char := s.data.head?

/-- Python truthiness of the `Optional[str]` field `output`:
`None` and the empty string are falsy. -/
def optStrFalsy : Option String → Bool
  | none => true
  | some s => s = ""

/-- Right-fold splitter behind `wordRuns`: returns the maximal word-character
run at the head of the input (possibly empty) and the remaining maximal runs. -/
def wordRunsAux : List Char → List Char × List (List Char)
  | [] => ([], [])
  | c :: cs =>
    let (cur, runs) := wordRunsAux cs
    if isWordChar c then (c :: cur, runs)
    else ([], if cur = [] then runs else cur :: runs)

/-- The maximal `\w`-runs of a character list, in order. -/
def wordRuns (l : List Char) : List (List Char) :=
  let (cur, runs) := wordRunsAux l
  if cur = [] then runs else cur :: runs

/-- `re.findall(r'\b[A-Z]\w+\b', expr)`: with `\b` holding exactly at the
edges of maximal `\w`-runs, the matches are the maximal word-character runs
that start with an ASCII uppercase letter and have length at least 2. -/
def exprTokens (s : String) : List String :=
  ((wordRuns (chars s)).filter
    (fun r => match r with
      | c :: _ :: _ => c.isUpper
      | _ => false)).map (fun r => ⟨r⟩)

/-- `'c' in s` for each candidate character (Python substring membership of a
1-character string). -/
def strHasChar (s : String) (c : Char) : Bool := (chars s).contains c

/-- Substring occurrence on character lists. -/
def listInfix : List Char → List Char → Bool
  | a, [] => a.isEmpty
  | a, b :: t => a.isPrefixOf (b :: t) || listInfix a t

/-- Python `a in b` on strings: substring containment. -/
def strContains (a b : String) : Bool := listInfix (chars a) (chars b)

/-- `_validate_mandatory_fields`. -/
def vMandatory (s : VState) : VState :=
  { s with
    errors := s.errors ++
      (if s.ast.goals = [] then ["At least 1 GOAL is required"] else []) ++
      (if s.ast.metrics = [] then ["At least 1 METRIC is required"] else []) ++
      (if optStrFalsy s.ast.output then ["OUTPUT declaration is required"] else []),
    warnings := s.warnings ++
      (if s.ast.persona = none then ["PERSONA is recommended but not mandatory"] else []) }

/-- The `if not self.ast.persona.value` error branch of `_validate_persona`. -/
def personaEmptyErr (p : PersonaNode) : List String :=
  if p.value = "" then ["PERSONA value cannot be empty"] else []

/-- `_validate_persona`. -/
def vPersona (s : VState) : VState :=
  match s.ast.persona with
  | none => s
  | some p =>
    { s with
      errors := s.errors ++ personaEmptyErr p,
      warnings := s.warnings ++
        (if p.value.length < 3 then ["PERSONA value is very short - consider more detail"] else []) }

/-- The `if not goal.value` error branch of `_validate_goals`. -/
def goalEmptyErr (g : GoalNode) : List String :=
  if g.value = "" then ["GOAL " ++ g.name ++ " has empty value"] else []

/-- Body of the `for goal in self.ast.goals` loop of `_validate_goals`;
`names` is the accumulated `goal_names` set. -/
def vGoalStep (names : List String) (g : GoalNode) (s : VState) : Option (List String × VState) := do
  let e1 := if g.name ∈ names then ["Duplicate GOAL name: " ++ g.name] else []
  let c ← pyIdx0 g.name
  let w1 := if !c.isUpper then
    ["GOAL name '" ++ g.name ++ "' should start with uppercase (PascalCase)"] else []
  let w2 := if !(['$', '%', 'M', 'K'].any (strHasChar g.value)) then
    ["GOAL " ++ g.name ++ " lacks quantifiable metric - consider adding dollar/percentage value"]
    else []
  some (names ++ [g.name],
    { s with errors := s.errors ++ e1 ++ goalEmptyErr g, warnings := s.warnings ++ w1 ++ w2 })

def vGoalsLoop : List String → List GoalNode → VState → Option VState
  | _, [], s => some s
  | names, g :: gs, s =>
    match vGoalStep names g s with
    | none => none
    | some (names', s') => vGoalsLoop names' gs s'

/-- `_validate_goals`. -/
def vGoals (s : VState) : Option VState := vGoalsLoop [] s.ast.goals s

/-- The `if metric.value < 0` warning branch of `_validate_metrics` (the
interpolated Python float repr is modelled by `toString` on `ℚ`; this string
is proved unreachable for parser-produced ASTs). -/
def metricNegWarn (m : MetricNode) : List String :=
  if m.value < 0 then
    ["METRIC " ++ m.name ++ " has negative value: " ++ toString m.value] else []

/-- Body of the `for metric in self.ast.metrics` loop of `_validate_metrics`. -/
def vMetricStep (names : List String) (m : MetricNode) (s : VState) : Option (List String × VState) := do
  let e1 := if m.name ∈ names then ["Duplicate METRIC name: " ++ m.name] else []
  let c ← pyIdx0 m.name
  let w1 := if !c.isUpper then
    ["METRIC name '" ++ m.name ++ "' should start with uppercase (PascalCase)"] else []
  let w3 := if m.value > 1 && strContains "Risk" m.name then
    ["METRIC " ++ m.name ++ " appears to be a risk/drift metric but value > 1.0"] else []
  some (names ++ [m.name],
    { s with errors := s.errors ++ e1, warnings := s.warnings ++ w1 ++ metricNegWarn m ++ w3 })

def vMetricsLoop : List String → List MetricNode → VState → Option VState
  | _, [], s => some s
  | names, m :: ms, s =>
    match vMetricStep names m s with
    | none => none
    | some (names', s') => vMetricsLoop names' ms s'

/-- `_validate_metrics`. -/
def vMetrics (s : VState) : Option VState := vMetricsLoop [] s.ast.metrics s

/-- The undefined-reference error message of `_validate_rmetrics`. -/
def rmetricUndefMsg (rname token : String) : String :=
  "RMetric " ++ rname ++ " references undefined METRIC: " ++ token

/-- The per-token error branch of `_validate_rmetrics`' expression check
(`rnames` already contains the current RMetric's own name). -/
def rmetricTokenErr (metricNames rnames : List String) (rname token : String) : List String :=
  if token ∉ metricNames && token ∉ rnames then [rmetricUndefMsg rname token] else []

/-- Body of the `for rmetric in self.ast.rmetrics` loop of `_validate_rmetrics`;
note `rmetric_names.add` runs before the naming and reference checks. -/
def vRMetricStep (metricNames rnames : List String) (r : RMetricNode) (s : VState) :
    Option (List String × VState) := do
  let e1 := if r.name ∈ rnames then ["Duplicate RMetric name: " ++ r.name] else []
  let rnames' := rnames ++ [r.name]
  let c ← pyIdx0 r.name
  let w1 := if !c.isUpper then
    ["RMetric name '" ++ r.name ++ "' should start with uppercase (PascalCase)"] else []
  let eTok := (exprTokens r.expr).flatMap (rmetricTokenErr metricNames rnames' r.name)
  let eCirc := if strContains r.name r.expr then
    ["RMetric " ++ r.name ++ " contains circular reference to itself"] else []
  some (rnames', { s with errors := s.errors ++ e1 ++ eTok ++ eCirc, warnings := s.warnings ++ w1 })

def vRMetricsLoop (metricNames : List String) :
    List String → List RMetricNode → VState → Option VState
  | _, [], s => some s
  | rnames, r :: rs, s =>
    match vRMetricStep metricNames rnames r s with
    | none => none
    | some (rnames', s') => vRMetricsLoop metricNames rnames' rs s'

/-- `_validate_rmetrics` (`metric_names` is the set of all declared metric
names, computed up front). -/
def vRMetrics (s : VState) : Option VState :=
  vRMetricsLoop (s.ast.metrics.map (fun m => m.name)) [] s.ast.rmetrics s

/-- Matcher for `(\w+)\s*([><=!]+)\s*([\d.]+)` (the trigger-condition regex of
`_validate_triggers`). -/
def matchCondition (cs : List Char) : Option (List Char × List Char × List Char) :=
  let name := cs.takeWhile isWordChar
  if name = [] then none
  else
    let cs1 := (cs.dropWhile isWordChar).dropWhile isPySpace
    let op := cs1.takeWhile (fun c => c = '>' || c = '<' || c = '=' || c = '!')
    if op = [] then none
    else
      let cs2 := (cs1.dropWhile (fun c => c = '>' || c = '<' || c = '=' || c = '!')).dropWhile isPySpace
      let num := cs2.takeWhile isNumChar
      if num = [] then none else some (name, op, num)

/-- Matcher for `(\w+)\(["\']?\w+["\']?\)` (the action regex of
`_validate_triggers`); the optional quotes cannot backtrack usefully because
quote characters are not word characters. -/
def matchActionCall (cs : List Char) : Bool :=
  let name := cs.takeWhile isWordChar
  if name = [] then false
  else
    match cs.dropWhile isWordChar with
    | '(' :: r =>
      let r1 := match r with
        | '"' :: t => t
        | '\'' :: t => t
        | t => t
      let w := r1.takeWhile isWordChar
      if w = [] then false
      else
        match r1.dropWhile isWordChar with
        | ')' :: _ => true
        | '"' :: ')' :: _ => true
        | '\'' :: ')' :: _ => true
        | _ => false
    | _ => false

/-- Body of the `for trigger in self.ast.triggers` loop of
`_validate_triggers` (on a failed condition match the loop `continue`s after
one error). -/
def vTriggerStep (metricNames : List String) (t : TriggerNode) (s : VState) : VState :=
  match matchCondition (chars t.condition) with
  | none =>
    { s with errors := s.errors ++ ["Invalid trigger condition syntax: " ++ t.condition] }
  | some (n, op, _) =>
    let e1 := if (⟨n⟩ : String) ∉ metricNames then
      ["Trigger references undefined METRIC: " ++ ⟨n⟩] else []
    let e2 := if (⟨op⟩ : String) ∉ [">", "<", ">=", "<=", "==", "!="] then
      ["Invalid comparator '" ++ ⟨op⟩ ++ "' in trigger"] else []
    let w := if !matchActionCall (chars t.action) then
      ["Action '" ++ t.action ++ "' may have invalid syntax"] else []
    { s with errors := s.errors ++ e1 ++ e2, warnings := s.warnings ++ w }

/-- `_validate_triggers`. -/
def vTriggers (s : VState) : VState :=
  (s.ast.triggers.foldl (fun st t =>
    vTriggerStep (st.ast.metrics.map (fun m => m.name)) t st) s)

/-- The `if not variant.value` error branch of `_validate_variants`. -/
def variantEmptyErr (v : VariantNode) : List String :=
  if v.value = "" then ["VARIANT " ++ v.type ++ " has empty value"] else []

/-- `_validate_variants`. -/
def vVariants (s : VState) : VState :=
  s.ast.variants.foldl
    (fun st v => { st with errors := st.errors ++ variantEmptyErr v }) s

/-- `_validate_output`. -/
def vOutput (s : VState) : VState :=
  if optStrFalsy s.ast.output then s
  else
    let out := s.ast.output.getD ""
    let e := if out ∉ validOutputs then ["Invalid OUTPUT type: " ++ out] else []
    let w1 := if out = "MintSite" then
      (if s.ast.persona = none then ["MintSite output works best with PERSONA defined"] else []) ++
      (if s.ast.variants = [] then ["MintSite output can use VARIANTs for page variants"] else [])
      else []
    let w2 := if out = "SMS_CAMPAIGN" && s.ast.goals.length = 0 then
      ["SMS_CAMPAIGN output needs GOALs for message content"] else []
    let w3 := if out = "AGENT" && s.ast.triggers = [] then
      ["AGENT output can use triggers for automation logic"] else []
    { s with errors := s.errors ++ e, warnings := s.warnings ++ w1 ++ w2 ++ w3 }

/-- The reserved operator vocabulary of `_validate_identifier_references`. -/
def reservedOps : List String := ["AND", "OR", "NOT", "IF"]

/-- The per-token warning of `_validate_identifier_references`: only tokens
outside the declared metric names and outside the reserved vocabulary warn. -/
def idRefTokenWarn (metricNames : List String) (rname token : String) : List String :=
  if token ∉ metricNames then
    if token ∉ reservedOps then
      ["RMetric " ++ rname ++ " references '" ++ token ++ "' which is not a declared METRIC"]
    else []
  else []

/-- `_validate_identifier_references` (warnings only). -/
def vIdRefs (s : VState) : VState :=
  let metricNames := s.ast.metrics.map (fun m => m.name)
  s.ast.rmetrics.foldl
    (fun st r =>
      { st with warnings :=
          st.warnings ++ (exprTokens r.expr).flatMap (idRefTokenWarn metricNames r.name) }) s

/-- The `validate` driver: the nine checks in source order. -/
def runValidate (s : VState) : Option VState :=
  (vGoals (vPersona (vMandatory s))).bind (fun s3 =>
    (vMetrics s3).bind (fun s4 =>
      (vRMetrics s4).map (fun s5 =>
        vIdRefs (vOutput (vVariants (vTriggers s5))))))

/-- `ROIValidator(ast).validate()`: run on a fresh state and return
`{'errors': ..., 'warnings': ...}` (`none` models an escaping exception). -/
def validate (ast : ROIDSLAST) : Option (List String × List String) :=
  (runValidate ⟨ast, [], []⟩).map (fun s => (s.errors, s.warnings))

/-! ## Parse invariants

Every identifier captured by a `(\w+)` group is nonempty, every quoted value
captured by a `"([^"]+)"` group is nonempty, and every metric value is the
nonnegative rational of an unsigned decimal numeral. -/

theorem matchNameQuoted_spec {cs n v : List Char}
    (h : matchNameQuoted cs = some (n, v)) : n ≠ [] ∧ v ≠ [] := by
  unfold matchNameQuoted at h
  repeat' first
    | exact Option.noConfusion h
    | (exfalso; revert h; simp; done)
    | (split at h <;> try exact Option.noConfusion h)
    | dsimp only at h
  simp only [Option.some.injEq, Prod.mk.injEq] at h
  obtain ⟨hn, hv⟩ := h
  subst hn; subst hv
  exact ⟨by assumption, by assumption⟩

theorem matchNameQuotedNoWs_spec {cs n v : List Char}
    (h : matchNameQuotedNoWs cs = some (n, v)) : n ≠ [] ∧ v ≠ [] := by
  unfold matchNameQuotedNoWs at h
  repeat' first
    | exact Option.noConfusion h
    | (exfalso; revert h; simp; done)
    | (split at h <;> try exact Option.noConfusion h)
    | dsimp only at h
  simp only [Option.some.injEq, Prod.mk.injEq] at h
  obtain ⟨hn, hv⟩ := h
  subst hn; subst hv
  exact ⟨by assumption, by assumption⟩

theorem matchQuotedOnly_spec {cs v : List Char}
    (h : matchQuotedOnly cs = some v) : v ≠ [] := by
  unfold matchQuotedOnly at h
  repeat' first
    | exact Option.noConfusion h
    | (exfalso; revert h; simp; done)
    | (split at h <;> try exact Option.noConfusion h)
    | dsimp only at h
  simp only [Option.some.injEq] at h
  subst h
  exact by assumption

theorem matchMetricNum_spec {cs n num : List Char}
    (h : matchMetricNum cs = some (n, num)) : n ≠ [] ∧ num ≠ [] := by
  unfold matchMetricNum at h
  repeat' first
    | exact Option.noConfusion h
    | (exfalso; revert h; simp; done)
    | (split at h <;> try exact Option.noConfusion h)
    | dsimp only at h
  simp only [Option.some.injEq, Prod.mk.injEq] at h
  obtain ⟨hn, hv⟩ := h
  subst hn; subst hv
  exact ⟨by assumption, by assumption⟩

theorem matchOutput_spec {cs t : List Char}
    (h : matchOutput cs = some t) : t ≠ [] := by
  unfold matchOutput at h
  repeat' first
    | exact Option.noConfusion h
    | (exfalso; revert h; simp; done)
    | (split at h <;> try exact Option.noConfusion h)
    | dsimp only at h
  simp only [Option.some.injEq] at h
  subst h
  exact by assumption

theorem decimalRat_nonneg (i f k : Nat) : 0 ≤ decimalRat i f k := by
  rw [decimalRat_eq]
  positivity

theorem pyFloatOfNum_nonneg {cs : List Char} {q : ℚ}
    (h : pyFloatOfNum cs = some q) : 0 ≤ q := by
  unfold pyFloatOfNum at h
  split at h
  · simp only [Option.some.injEq] at h
    subst h
    exact decimalRat_nonneg _ _ _
  · exact absurd h (by simp)

/-- Nonempty character list gives a nonempty `String`. -/
theorem mk_ne_empty {l : List Char} (h : l ≠ []) : (⟨l⟩ : String) ≠ "" := by
  intro hc
  exact h (congrArg String.data hc)

/-- Invariant of every AST reachable by `parse`: captured identifiers and
quoted values are nonempty, and metric values are nonnegative. -/
structure ParseInv (a : ROIDSLAST) : Prop where
  goalsName : ∀ g ∈ a.goals, g.name ≠ ""
  goalsVal : ∀ g ∈ a.goals, g.value ≠ ""
  metricsName : ∀ m ∈ a.metrics, m.name ≠ ""
  metricsVal : ∀ m ∈ a.metrics, 0 ≤ m.value
  rmetricsName : ∀ r ∈ a.rmetrics, r.name ≠ ""
  rmetricsExpr : ∀ r ∈ a.rmetrics, r.expr ≠ ""
  personaVal : ∀ p, a.persona = some p → p.value ≠ ""
  personasVal : ∀ p ∈ a.personas, p.value ≠ ""
  variantsVal : ∀ v ∈ a.variants, v.value ≠ ""
  tagsVal : ∀ t ∈ a.sk_tags, t ≠ ""
  credVal : ∀ kv ∈ a.credentials, kv.2 ≠ ""
  caseVal : ∀ kv ∈ a.case_studies, kv.2 ≠ ""
  servVal : ∀ kv ∈ a.services, kv.2 ≠ ""
  trainVal : ∀ kv ∈ a.training, kv.2 ≠ ""
  vinVal : ∀ kv ∈ a.vroi_inputs, kv.2 ≠ ""
  voutVal : ∀ kv ∈ a.vroi_outputs, kv.2 ≠ ""
  statsVal : ∀ kv ∈ a.stats, kv.2 ≠ ""
  microVal : ∀ kv ∈ a.microtraining, kv.2 ≠ ""
  seoVal : ∀ kv ∈ a.seo, kv.2 ≠ ""
  contactVal : ∀ kv ∈ a.contact, kv.2 ≠ ""

theorem dictSet_val {P : String → Prop} {d : List (String × String)} {k v : String}
    (hd : ∀ kv ∈ d, P kv.2) (hv : P v) : ∀ kv ∈ dictSet d k v, P kv.2 := by
  intro kv hkv
  unfold dictSet at hkv
  split at hkv
  · rcases List.mem_map.1 hkv with ⟨p, hp, hs⟩
    split at hs
    · rw [← hs]; exact hv
    · rw [← hs]; exact hd p hp
  · rcases List.mem_append.1 hkv with h | h
    · exact hd kv h
    · rw [List.mem_singleton.1 h]; exact hv

theorem ParseInv.empty : ParseInv {} := by
  constructor <;> simp

theorem ParseInv.addGoal {a : ROIDSLAST} (hi : ParseInv a) {n v : String}
    (h1 : n ≠ "") (h2 : v ≠ "") : ParseInv { a with goals := a.goals ++ [⟨n, v⟩] } :=
  ⟨fun g hg => (List.mem_append.1 hg).elim (hi.goalsName g)
     (fun hh => by rw [List.mem_singleton.1 hh]; exact h1),
   fun g hg => (List.mem_append.1 hg).elim (hi.goalsVal g)
     (fun hh => by rw [List.mem_singleton.1 hh]; exact h2),
   hi.metricsName,
   hi.metricsVal,
   hi.rmetricsName,
   hi.rmetricsExpr,
   hi.personaVal,
   hi.personasVal,
   hi.variantsVal,
   hi.tagsVal,
   hi.credVal,
   hi.caseVal,
   hi.servVal,
   hi.trainVal,
   hi.vinVal,
   hi.voutVal,
   hi.statsVal,
   hi.microVal,
   hi.seoVal,
   hi.contactVal⟩

theorem ParseInv.addMetric {a : ROIDSLAST} (hi : ParseInv a) {n : String} {q : ℚ}
    (h1 : n ≠ "") (h2 : 0 ≤ q) : ParseInv { a with metrics := a.metrics ++ [⟨n, q⟩] } :=
  ⟨hi.goalsName,
   hi.goalsVal,
   fun m hm => (List.mem_append.1 hm).elim (hi.metricsName m)
     (fun hh => by rw [List.mem_singleton.1 hh]; exact h1),
   fun m hm => (List.mem_append.1 hm).elim (hi.metricsVal m)
     (fun hh => by rw [List.mem_singleton.1 hh]; exact h2),
   hi.rmetricsName,
   hi.rmetricsExpr,
   hi.personaVal,
   hi.personasVal,
   hi.variantsVal,
   hi.tagsVal,
   hi.credVal,
   hi.caseVal,
   hi.servVal,
   hi.trainVal,
   hi.vinVal,
   hi.voutVal,
   hi.statsVal,
   hi.microVal,
   hi.seoVal,
   hi.contactVal⟩

theorem ParseInv.addRMetric {a : ROIDSLAST} (hi : ParseInv a) {n e : String}
    (h1 : n ≠ "") (h2 : e ≠ "") : ParseInv { a with rmetrics := a.rmetrics ++ [⟨n, e⟩] } :=
  ⟨hi.goalsName,
   hi.goalsVal,
   hi.metricsName,
   hi.metricsVal,
   fun r hr => (List.mem_append.1 hr).elim (hi.rmetricsName r)
     (fun hh => by rw [List.mem_singleton.1 hh]; exact h1),
   fun r hr => (List.mem_append.1 hr).elim (hi.rmetricsExpr r)
     (fun hh => by rw [List.mem_singleton.1 hh]; exact h2),
   hi.personaVal,
   hi.personasVal,
   hi.variantsVal,
   hi.tagsVal,
   hi.credVal,
   hi.caseVal,
   hi.servVal,
   hi.trainVal,
   hi.vinVal,
   hi.voutVal,
   hi.statsVal,
   hi.microVal,
   hi.seoVal,
   hi.contactVal⟩

theorem ParseInv.addPersona {a : ROIDSLAST} (hi : ParseInv a) {p : PersonaNode} (hv : p.value ≠ "") :
    ParseInv { a with
      persona := match a.persona with | none => some p | some q => some q,
      personas := a.personas ++ [p] } :=
  ⟨hi.goalsName,
   hi.goalsVal,
   hi.metricsName,
   hi.metricsVal,
   hi.rmetricsName,
   hi.rmetricsExpr,
   fun r hr => by
     cases ha : a.persona with
     | none => rw [ha] at hr; exact (Option.some.inj hr) ▸ hv
     | some q => rw [ha] at hr; exact (Option.some.inj hr) ▸ hi.personaVal q ha,
   fun p2 hp => (List.mem_append.1 hp).elim (hi.personasVal p2)
     (fun hh => by rw [List.mem_singleton.1 hh]; exact hv),
   hi.variantsVal,
   hi.tagsVal,
   hi.credVal,
   hi.caseVal,
   hi.servVal,
   hi.trainVal,
   hi.vinVal,
   hi.voutVal,
   hi.statsVal,
   hi.microVal,
   hi.seoVal,
   hi.contactVal⟩

theorem ParseInv.addVariant {a : ROIDSLAST} (hi : ParseInv a) {t v : String}
    (h2 : v ≠ "") : ParseInv { a with variants := a.variants ++ [⟨t, v⟩] } :=
  ⟨hi.goalsName,
   hi.goalsVal,
   hi.metricsName,
   hi.metricsVal,
   hi.rmetricsName,
   hi.rmetricsExpr,
   hi.personaVal,
   hi.personasVal,
   fun w hw => (List.mem_append.1 hw).elim (hi.variantsVal w)
     (fun hh => by rw [List.mem_singleton.1 hh]; exact h2),
   hi.tagsVal,
   hi.credVal,
   hi.caseVal,
   hi.servVal,
   hi.trainVal,
   hi.vinVal,
   hi.voutVal,
   hi.statsVal,
   hi.microVal,
   hi.seoVal,
   hi.contactVal⟩

theorem ParseInv.addTag {a : ROIDSLAST} (hi : ParseInv a) {t : String}
    (h1 : t ≠ "") : ParseInv { a with sk_tags := a.sk_tags ++ [t] } :=
  ⟨hi.goalsName,
   hi.goalsVal,
   hi.metricsName,
   hi.metricsVal,
   hi.rmetricsName,
   hi.rmetricsExpr,
   hi.personaVal,
   hi.personasVal,
   hi.variantsVal,
   fun w hw => (List.mem_append.1 hw).elim (hi.tagsVal w)
     (fun hh => by rw [List.mem_singleton.1 hh]; exact h1),
   hi.credVal,
   hi.caseVal,
   hi.servVal,
   hi.trainVal,
   hi.vinVal,
   hi.voutVal,
   hi.statsVal,
   hi.microVal,
   hi.seoVal,
   hi.contactVal⟩

theorem ParseInv.setTriggers {a : ROIDSLAST} (hi : ParseInv a) {ts : List TriggerNode} :
    ParseInv { a with triggers := ts } :=
  ⟨hi.goalsName,
   hi.goalsVal,
   hi.metricsName,
   hi.metricsVal,
   hi.rmetricsName,
   hi.rmetricsExpr,
   hi.personaVal,
   hi.personasVal,
   hi.variantsVal,
   hi.tagsVal,
   hi.credVal,
   hi.caseVal,
   hi.servVal,
   hi.trainVal,
   hi.vinVal,
   hi.voutVal,
   hi.statsVal,
   hi.microVal,
   hi.seoVal,
   hi.contactVal⟩

theorem ParseInv.setOutput {a : ROIDSLAST} (hi : ParseInv a) {o : Option String} :
    ParseInv { a with output := o } :=
  ⟨hi.goalsName,
   hi.goalsVal,
   hi.metricsName,
   hi.metricsVal,
   hi.rmetricsName,
   hi.rmetricsExpr,
   hi.personaVal,
   hi.personasVal,
   hi.variantsVal,
   hi.tagsVal,
   hi.credVal,
   hi.caseVal,
   hi.servVal,
   hi.trainVal,
   hi.vinVal,
   hi.voutVal,
   hi.statsVal,
   hi.microVal,
   hi.seoVal,
   hi.contactVal⟩

theorem ParseInv.setCred {a : ROIDSLAST} (hi : ParseInv a) {k v : String}
    (hv : v ≠ "") : ParseInv { a with credentials := dictSet a.credentials k v } :=
  ⟨hi.goalsName,
   hi.goalsVal,
   hi.metricsName,
   hi.metricsVal,
   hi.rmetricsName,
   hi.rmetricsExpr,
   hi.personaVal,
   hi.personasVal,
   hi.variantsVal,
   hi.tagsVal,
   dictSet_val (P := fun s => s ≠ "") hi.credVal hv,
   hi.caseVal,
   hi.servVal,
   hi.trainVal,
   hi.vinVal,
   hi.voutVal,
   hi.statsVal,
   hi.microVal,
   hi.seoVal,
   hi.contactVal⟩

theorem ParseInv.setCase {a : ROIDSLAST} (hi : ParseInv a) {k v : String}
    (hv : v ≠ "") : ParseInv { a with case_studies := dictSet a.case_studies k v } :=
  ⟨hi.goalsName,
   hi.goalsVal,
   hi.metricsName,
   hi.metricsVal,
   hi.rmetricsName,
   hi.rmetricsExpr,
   hi.personaVal,
   hi.personasVal,
   hi.variantsVal,
   hi.tagsVal,
   hi.credVal,
   dictSet_val (P := fun s => s ≠ "") hi.caseVal hv,
   hi.servVal,
   hi.trainVal,
   hi.vinVal,
   hi.voutVal,
   hi.statsVal,
   hi.microVal,
   hi.seoVal,
   hi.contactVal⟩

theorem ParseInv.setServ {a : ROIDSLAST} (hi : ParseInv a) {k v : String}
    (hv : v ≠ "") : ParseInv { a with services := dictSet a.services k v } :=
  ⟨hi.goalsName,
   hi.goalsVal,
   hi.metricsName,
   hi.metricsVal,
   hi.rmetricsName,
   hi.rmetricsExpr,
   hi.personaVal,
   hi.personasVal,
   hi.variantsVal,
   hi.tagsVal,
   hi.credVal,
   hi.caseVal,
   dictSet_val (P := fun s => s ≠ "") hi.servVal hv,
   hi.trainVal,
   hi.vinVal,
   hi.voutVal,
   hi.statsVal,
   hi.microVal,
   hi.seoVal,
   hi.contactVal⟩

theorem ParseInv.setTrain {a : ROIDSLAST} (hi : ParseInv a) {k v : String}
    (hv : v ≠ "") : ParseInv { a with training := dictSet a.training k v } :=
  ⟨hi.goalsName,
   hi.goalsVal,
   hi.metricsName,
   hi.metricsVal,
   hi.rmetricsName,
   hi.rmetricsExpr,
   hi.personaVal,
   hi.personasVal,
   hi.variantsVal,
   hi.tagsVal,
   hi.credVal,
   hi.caseVal,
   hi.servVal,
   dictSet_val (P := fun s => s ≠ "") hi.trainVal hv,
   hi.vinVal,
   hi.voutVal,
   hi.statsVal,
   hi.microVal,
   hi.seoVal,
   hi.contactVal⟩

theorem ParseInv.setVin {a : ROIDSLAST} (hi : ParseInv a) {k v : String}
    (hv : v ≠ "") : ParseInv { a with vroi_inputs := dictSet a.vroi_inputs k v } :=
  ⟨hi.goalsName,
   hi.goalsVal,
   hi.metricsName,
   hi.metricsVal,
   hi.rmetricsName,
   hi.rmetricsExpr,
   hi.personaVal,
   hi.personasVal,
   hi.variantsVal,
   hi.tagsVal,
   hi.credVal,
   hi.caseVal,
   hi.servVal,
   hi.trainVal,
   dictSet_val (P := fun s => s ≠ "") hi.vinVal hv,
   hi.voutVal,
   hi.statsVal,
   hi.microVal,
   hi.seoVal,
   hi.contactVal⟩

theorem ParseInv.setVout {a : ROIDSLAST} (hi : ParseInv a) {k v : String}
    (hv : v ≠ "") : ParseInv { a with vroi_outputs := dictSet a.vroi_outputs k v } :=
  ⟨hi.goalsName,
   hi.goalsVal,
   hi.metricsName,
   hi.metricsVal,
   hi.rmetricsName,
   hi.rmetricsExpr,
   hi.personaVal,
   hi.personasVal,
   hi.variantsVal,
   hi.tagsVal,
   hi.credVal,
   hi.caseVal,
   hi.servVal,
   hi.trainVal,
   hi.vinVal,
   dictSet_val (P := fun s => s ≠ "") hi.voutVal hv,
   hi.statsVal,
   hi.microVal,
   hi.seoVal,
   hi.contactVal⟩

theorem ParseInv.setStats {a : ROIDSLAST} (hi : ParseInv a) {k v : String}
    (hv : v ≠ "") : ParseInv { a with stats := dictSet a.stats k v } :=
  ⟨hi.goalsName,
   hi.goalsVal,
   hi.metricsName,
   hi.metricsVal,
   hi.rmetricsName,
   hi.rmetricsExpr,
   hi.personaVal,
   hi.personasVal,
   hi.variantsVal,
   hi.tagsVal,
   hi.credVal,
   hi.caseVal,
   hi.servVal,
   hi.trainVal,
   hi.vinVal,
   hi.voutVal,
   dictSet_val (P := fun s => s ≠ "") hi.statsVal hv,
   hi.microVal,
   hi.seoVal,
   hi.contactVal⟩

theorem ParseInv.setMicro {a : ROIDSLAST} (hi : ParseInv a) {k v : String}
    (hv : v ≠ "") : ParseInv { a with microtraining := dictSet a.microtraining k v } :=
  ⟨hi.goalsName,
   hi.goalsVal,
   hi.metricsName,
   hi.metricsVal,
   hi.rmetricsName,
   hi.rmetricsExpr,
   hi.personaVal,
   hi.personasVal,
   hi.variantsVal,
   hi.tagsVal,
   hi.credVal,
   hi.caseVal,
   hi.servVal,
   hi.trainVal,
   hi.vinVal,
   hi.voutVal,
   hi.statsVal,
   dictSet_val (P := fun s => s ≠ "") hi.microVal hv,
   hi.seoVal,
   hi.contactVal⟩

theorem ParseInv.setSeo {a : ROIDSLAST} (hi : ParseInv a) {k v : String}
    (hv : v ≠ "") : ParseInv { a with seo := dictSet a.seo k v } :=
  ⟨hi.goalsName,
   hi.goalsVal,
   hi.metricsName,
   hi.metricsVal,
   hi.rmetricsName,
   hi.rmetricsExpr,
   hi.personaVal,
   hi.personasVal,
   hi.variantsVal,
   hi.tagsVal,
   hi.credVal,
   hi.caseVal,
   hi.servVal,
   hi.trainVal,
   hi.vinVal,
   hi.voutVal,
   hi.statsVal,
   hi.microVal,
   dictSet_val (P := fun s => s ≠ "") hi.seoVal hv,
   hi.contactVal⟩

theorem ParseInv.setContact {a : ROIDSLAST} (hi : ParseInv a) {k v : String}
    (hv : v ≠ "") : ParseInv { a with contact := dictSet a.contact k v } :=
  ⟨hi.goalsName,
   hi.goalsVal,
   hi.metricsName,
   hi.metricsVal,
   hi.rmetricsName,
   hi.rmetricsExpr,
   hi.personaVal,
   hi.personasVal,
   hi.variantsVal,
   hi.tagsVal,
   hi.credVal,
   hi.caseVal,
   hi.servVal,
   hi.trainVal,
   hi.vinVal,
   hi.voutVal,
   hi.statsVal,
   hi.microVal,
   hi.seoVal,
   dictSet_val (P := fun s => s ≠ "") hi.contactVal hv⟩


theorem bindChain {α β : Type} {o : Option α} {f : α → Option β} {b : β}
    (h : (o >>= f) = some b) : ∃ a, o = some a ∧ f a = some b := by
  cases o with
  | none => exact Option.noConfusion h
  | some a => exact ⟨a, rfl, h⟩

theorem parsePersona_inv {line : List Char} {a a' : ROIDSLAST}
    (h : parsePersona line a = .ok a') (hi : ParseInv a) : ParseInv a' := by
  unfold parsePersona at h
  split at h
  · exact Except.noConfusion h
  · rename_i nv heq
    obtain ⟨rest, hs, hm⟩ := bindChain heq
    obtain ⟨hn, hv⟩ := matchNameQuoted_spec hm
    injection h with h
    subst h
    exact hi.addPersona (mk_ne_empty hv)

theorem parseGoal_inv {line : List Char} {a a' : ROIDSLAST}
    (h : parseGoal line a = .ok a') (hi : ParseInv a) : ParseInv a' := by
  unfold parseGoal at h
  split at h
  · exact Except.noConfusion h
  · rename_i nv heq
    obtain ⟨rest, hs, hm⟩ := bindChain heq
    obtain ⟨hn, hv⟩ := matchNameQuoted_spec hm
    injection h with h
    subst h
    exact hi.addGoal (mk_ne_empty hn) (mk_ne_empty hv)

theorem parseRMetric_inv {line : List Char} {a a' : ROIDSLAST}
    (h : parseRMetric line a = .ok a') (hi : ParseInv a) : ParseInv a' := by
  unfold parseRMetric at h
  split at h
  · exact Except.noConfusion h
  · rename_i nv heq
    obtain ⟨rest, hs, hm⟩ := bindChain heq
    obtain ⟨hn, hv⟩ := matchNameQuoted_spec hm
    injection h with h
    subst h
    exact hi.addRMetric (mk_ne_empty hn) (mk_ne_empty hv)

theorem parseVariant_inv {line : List Char} {a a' : ROIDSLAST}
    (h : parseVariant line a = .ok a') (hi : ParseInv a) : ParseInv a' := by
  unfold parseVariant at h
  split at h
  · exact Except.noConfusion h
  · rename_i nv heq
    obtain ⟨rest, hs, hm⟩ := bindChain heq
    obtain ⟨hn, hv⟩ := matchNameQuoted_spec hm
    injection h with h
    subst h
    exact hi.addVariant (mk_ne_empty hv)

theorem parseSkTag_inv {line : List Char} {a a' : ROIDSLAST}
    (h : parseSkTag line a = .ok a') (hi : ParseInv a) : ParseInv a' := by
  unfold parseSkTag at h
  split at h
  · exact Except.noConfusion h
  · rename_i v heq
    obtain ⟨rest, hs, hm⟩ := bindChain heq
    have hv := matchQuotedOnly_spec hm
    injection h with h
    subst h
    exact hi.addTag (mk_ne_empty hv)

theorem parseMetric_inv {line : List Char} {a a' : ROIDSLAST}
    (h : parseMetric line a = .ok a') (hi : ParseInv a) : ParseInv a' := by
  unfold parseMetric at h
  split at h
  · exact Except.noConfusion h
  · rename_i nv heq
    split at h
    · exact Except.noConfusion h
    · rename_i q hq
      obtain ⟨rest, hs, hm⟩ := bindChain heq
      obtain ⟨hn, hnum⟩ := matchMetricNum_spec hm
      injection h with h
      subst h
      exact hi.addMetric (mk_ne_empty hn) (pyFloatOfNum_nonneg hq)

theorem parseTrigger_inv {line : List Char} {a a' : ROIDSLAST}
    (h : parseTrigger line a = .ok a') (hi : ParseInv a) : ParseInv a' := by
  unfold parseTrigger at h
  split at h
  · exact Except.noConfusion h
  · injection h with h
    subst h
    exact hi.setTriggers

theorem parseOutput_inv {line : List Char} {a a' : ROIDSLAST}
    (h : parseOutput line a = .ok a') (hi : ParseInv a) : ParseInv a' := by
  unfold parseOutput at h
  split at h
  · exact Except.noConfusion h
  · split at h
    · injection h with h
      subst h
      exact hi.setOutput
    · exact Except.noConfusion h

theorem parseFact_cred_inv {line : List Char} {a a' : ROIDSLAST}
    (h : parseFactTable "CREDENTIAL" "CREDENTIAL" (·.credentials) setCredentials line a = .ok a') (hi : ParseInv a) : ParseInv a' := by
  unfold parseFactTable at h
  split at h
  · exact Except.noConfusion h
  · rename_i nv heq
    obtain ⟨rest, hs, hm⟩ := bindChain heq
    obtain ⟨hn, hv⟩ := matchNameQuoted_spec hm
    injection h with h
    subst h
    exact hi.setCred (mk_ne_empty hv)

theorem parseFact_case_inv {line : List Char} {a a' : ROIDSLAST}
    (h : parseFactTable "CASE_STUDY" "CASE_STUDY" (·.case_studies) setCaseStudies line a = .ok a') (hi : ParseInv a) : ParseInv a' := by
  unfold parseFactTable at h
  split at h
  · exact Except.noConfusion h
  · rename_i nv heq
    obtain ⟨rest, hs, hm⟩ := bindChain heq
    obtain ⟨hn, hv⟩ := matchNameQuoted_spec hm
    injection h with h
    subst h
    exact hi.setCase (mk_ne_empty hv)

theorem parseFact_serv_inv {line : List Char} {a a' : ROIDSLAST}
    (h : parseFactTable "SERVICE" "SERVICE" (·.services) setServices line a = .ok a') (hi : ParseInv a) : ParseInv a' := by
  unfold parseFactTable at h
  split at h
  · exact Except.noConfusion h
  · rename_i nv heq
    obtain ⟨rest, hs, hm⟩ := bindChain heq
    obtain ⟨hn, hv⟩ := matchNameQuoted_spec hm
    injection h with h
    subst h
    exact hi.setServ (mk_ne_empty hv)

theorem parseFact_train_inv {line : List Char} {a a' : ROIDSLAST}
    (h : parseFactTable "TRAINING" "TRAINING" (·.training) setTraining line a = .ok a') (hi : ParseInv a) : ParseInv a' := by
  unfold parseFactTable at h
  split at h
  · exact Except.noConfusion h
  · rename_i nv heq
    obtain ⟨rest, hs, hm⟩ := bindChain heq
    obtain ⟨hn, hv⟩ := matchNameQuoted_spec hm
    injection h with h
    subst h
    exact hi.setTrain (mk_ne_empty hv)

theorem parseFact_vin_inv {line : List Char} {a a' : ROIDSLAST}
    (h : parseFactTable "VROI_INPUT" "VROI_INPUT" (·.vroi_inputs) setVroiInputs line a = .ok a') (hi : ParseInv a) : ParseInv a' := by
  unfold parseFactTable at h
  split at h
  · exact Except.noConfusion h
  · rename_i nv heq
    obtain ⟨rest, hs, hm⟩ := bindChain heq
    obtain ⟨hn, hv⟩ := matchNameQuoted_spec hm
    injection h with h
    subst h
    exact hi.setVin (mk_ne_empty hv)

theorem parseFact_vout_inv {line : List Char} {a a' : ROIDSLAST}
    (h : parseFactTable "VROI_OUTPUT" "VROI_OUTPUT" (·.vroi_outputs) setVroiOutputs line a = .ok a') (hi : ParseInv a) : ParseInv a' := by
  unfold parseFactTable at h
  split at h
  · exact Except.noConfusion h
  · rename_i nv heq
    obtain ⟨rest, hs, hm⟩ := bindChain heq
    obtain ⟨hn, hv⟩ := matchNameQuoted_spec hm
    injection h with h
    subst h
    exact hi.setVout (mk_ne_empty hv)

theorem parseFact_stats_inv {line : List Char} {a a' : ROIDSLAST}
    (h : parseFactTable "STAT" "STAT" (·.stats) setStats line a = .ok a') (hi : ParseInv a) : ParseInv a' := by
  unfold parseFactTable at h
  split at h
  · exact Except.noConfusion h
  · rename_i nv heq
    obtain ⟨rest, hs, hm⟩ := bindChain heq
    obtain ⟨hn, hv⟩ := matchNameQuoted_spec hm
    injection h with h
    subst h
    exact hi.setStats (mk_ne_empty hv)

theorem parseFact_micro_inv {line : List Char} {a a' : ROIDSLAST}
    (h : parseFactTable "MICROTRAINING" "MICROTRAINING" (·.microtraining) setMicrotraining line a = .ok a') (hi : ParseInv a) : ParseInv a' := by
  unfold parseFactTable at h
  split at h
  · exact Except.noConfusion h
  · rename_i nv heq
    obtain ⟨rest, hs, hm⟩ := bindChain heq
    obtain ⟨hn, hv⟩ := matchNameQuoted_spec hm
    injection h with h
    subst h
    exact hi.setMicro (mk_ne_empty hv)

theorem parsePx_seo_inv {line : List Char} {a a' : ROIDSLAST}
    (h : parsePrefixTable "SEO_" "SEO" (·.seo) setSeo line a = .ok a') (hi : ParseInv a) : ParseInv a' := by
  unfold parsePrefixTable at h
  split at h
  · exact Except.noConfusion h
  · rename_i nv heq
    obtain ⟨rest, hs, hm⟩ := bindChain heq
    obtain ⟨hn, hv⟩ := matchNameQuotedNoWs_spec hm
    injection h with h
    subst h
    exact hi.setSeo (mk_ne_empty hv)

theorem parsePx_contact_inv {line : List Char} {a a' : ROIDSLAST}
    (h : parsePrefixTable "CONTACT_" "CONTACT" (·.contact) setContact line a = .ok a') (hi : ParseInv a) : ParseInv a' := by
  unfold parsePrefixTable at h
  split at h
  · exact Except.noConfusion h
  · rename_i nv heq
    obtain ⟨rest, hs, hm⟩ := bindChain heq
    obtain ⟨hn, hv⟩ := matchNameQuotedNoWs_spec hm
    injection h with h
    subst h
    exact hi.setContact (mk_ne_empty hv)

theorem parseStep_inv {i : Nat} {line : List Char} {a a' : ROIDSLAST}
    (h : parseStep i line a = .ok a') (hi : ParseInv a) : ParseInv a' := by
  unfold parseStep at h
  by_cases hc1 : (startsWith line "#" || startsWith line "//") = true
  · rw [if_pos hc1] at h
    injection h with h; subst h; exact hi
  rw [if_neg hc1] at h
  by_cases hc2 : startsWith line "PERSONA" = true
  · rw [if_pos hc2] at h
    exact parsePersona_inv h hi
  rw [if_neg hc2] at h
  by_cases hc3 : startsWith line "GOAL" = true
  · rw [if_pos hc3] at h
    exact parseGoal_inv h hi
  rw [if_neg hc3] at h
  by_cases hc4 : (startsWith line "METRIC" && !startsWith line "RMetric") = true
  · rw [if_pos hc4] at h
    exact parseMetric_inv h hi
  rw [if_neg hc4] at h
  by_cases hc5 : startsWith line "RMetric" = true
  · rw [if_pos hc5] at h
    exact parseRMetric_inv h hi
  rw [if_neg hc5] at h
  by_cases hc6 : startsWith line "WHEN" = true
  · rw [if_pos hc6] at h
    exact parseTrigger_inv h hi
  rw [if_neg hc6] at h
  by_cases hc7 : startsWith line "VARIANT" = true
  · rw [if_pos hc7] at h
    exact parseVariant_inv h hi
  rw [if_neg hc7] at h
  by_cases hc8 : startsWith line "CREDENTIAL" = true
  · rw [if_pos hc8] at h
    exact parseFact_cred_inv h hi
  rw [if_neg hc8] at h
  by_cases hc9 : startsWith line "CASE_STUDY" = true
  · rw [if_pos hc9] at h
    exact parseFact_case_inv h hi
  rw [if_neg hc9] at h
  by_cases hc10 : startsWith line "SERVICE" = true
  · rw [if_pos hc10] at h
    exact parseFact_serv_inv h hi
  rw [if_neg hc10] at h
  by_cases hc11 : startsWith line "TRAINING" = true
  · rw [if_pos hc11] at h
    exact parseFact_train_inv h hi
  rw [if_neg hc11] at h
  by_cases hc12 : startsWith line "VROI_INPUT" = true
  · rw [if_pos hc12] at h
    exact parseFact_vin_inv h hi
  rw [if_neg hc12] at h
  by_cases hc13 : startsWith line "VROI_OUTPUT" = true
  · rw [if_pos hc13] at h
    exact parseFact_vout_inv h hi
  rw [if_neg hc13] at h
  by_cases hc14 : startsWith line "STAT" = true
  · rw [if_pos hc14] at h
    exact parseFact_stats_inv h hi
  rw [if_neg hc14] at h
  by_cases hc15 : startsWith line "MICROTRAINING" = true
  · rw [if_pos hc15] at h
    exact parseFact_micro_inv h hi
  rw [if_neg hc15] at h
  by_cases hc16 : startsWith line "SEO_" = true
  · rw [if_pos hc16] at h
    exact parsePx_seo_inv h hi
  rw [if_neg hc16] at h
  by_cases hc17 : startsWith line "CONTACT_" = true
  · rw [if_pos hc17] at h
    exact parsePx_contact_inv h hi
  rw [if_neg hc17] at h
  by_cases hc18 : startsWith line "SK_TAG" = true
  · rw [if_pos hc18] at h
    exact parseSkTag_inv h hi
  rw [if_neg hc18] at h
  by_cases hc19 : startsWith line "OUTPUT" = true
  · rw [if_pos hc19] at h
    exact parseOutput_inv h hi
  rw [if_neg hc19] at h
  exact Except.noConfusion h

theorem parseGo_inv : ∀ (ls : List (List Char)) (i : Nat) (a a' : ROIDSLAST),
    parseGo i ls a = .ok a' → ParseInv a → ParseInv a'
  | [], _, _, _, h, hi => by
    injection h with h
    subst h
    exact hi
  | l :: ls, i, a, a', h, hi => by
    unfold parseGo at h
    split at h
    · exact Except.noConfusion h
    · rename_i a1 h1
      exact parseGo_inv ls (i + 1) a1 a' h (parseStep_inv h1 hi)

/-- Every AST produced by a successful `parse` satisfies the parse invariant. -/
theorem parse_ok_inv {text : String} {ast : ROIDSLAST}
    (h : parse text = .ok ast) : ParseInv ast :=
  parseGo_inv _ _ _ _ h ParseInv.empty

/-! ## Validator: frame and totality lemmas -/

theorem str_data_ne {s : String} (h : s ≠ "") : s.data ≠ [] := by
  intro hc
  exact h (by cases s with | mk d => cases hc; rfl)

theorem vMandatory_ast (s : VState) : (vMandatory s).ast = s.ast := rfl

theorem vPersona_ast (s : VState) : (vPersona s).ast = s.ast := by
  unfold vPersona
  split <;> rfl

theorem vGoalStep_eq {names : List String} {g : GoalNode} {s : VState} {c : Char}
    (hp : pyIdx0 g.name = some c) :
    vGoalStep names g s = some (names ++ [g.name],
      { s with
        errors := s.errors ++
          (if g.name ∈ names then ["Duplicate GOAL name: " ++ g.name] else []) ++ goalEmptyErr g,
        warnings := s.warnings ++
          (if !c.isUpper then
            ["GOAL name '" ++ g.name ++ "' should start with uppercase (PascalCase)"] else []) ++
          (if !(['$', '%', 'M', 'K'].any (strHasChar g.value)) then
            ["GOAL " ++ g.name ++
              " lacks quantifiable metric - consider adding dollar/percentage value"] else []) }) := by
  unfold vGoalStep
  rw [hp]
  rfl

theorem vGoalStep_ast {names : List String} {g : GoalNode} {s : VState}
    {p : List String × VState} (h : vGoalStep names g s = some p) : p.2.ast = s.ast := by
  cases hp : pyIdx0 g.name with
  | none =>
    unfold vGoalStep at h
    rw [hp] at h
    exact Option.noConfusion h
  | some c =>
    rw [vGoalStep_eq hp] at h
    injection h with h
    subst h
    rfl

theorem vGoalsLoop_ast : ∀ (gs : List GoalNode) (names : List String) (s r : VState),
    vGoalsLoop names gs s = some r → r.ast = s.ast
  | [], _, s, r, h => by
    injection h with h
    subst h
    rfl
  | g :: gs, names, s, r, h => by
    unfold vGoalsLoop at h
    split at h
    · exact Option.noConfusion h
    · rename_i names' s' hstep
      rw [vGoalsLoop_ast gs names' s' r h, vGoalStep_ast hstep]

theorem vGoalsLoop_some : ∀ (gs : List GoalNode) (names : List String) (s : VState),
    (∀ g ∈ gs, g.name ≠ "") → ∃ r, vGoalsLoop names gs s = some r
  | [], _, s, _ => ⟨s, rfl⟩
  | g :: gs, names, s, hall => by
    have hd : g.name.data ≠ [] := str_data_ne (hall g (by simp))
    obtain ⟨c, cs, hcons⟩ := List.exists_cons_of_ne_nil hd
    have hp : pyIdx0 g.name = some c := by simp [pyIdx0, hcons]
    obtain ⟨r, hr⟩ :=
      vGoalsLoop_some gs (names ++ [g.name]) _ (fun g' hg' => hall g' (by simp [hg']))
    exact ⟨r, by rw [vGoalsLoop, vGoalStep_eq hp]; exact hr⟩

theorem vMetricStep_eq {names : List String} {m : MetricNode} {s : VState} {c : Char}
    (hp : pyIdx0 m.name = some c) :
    vMetricStep names m s = some (names ++ [m.name],
      { s with
        errors := s.errors ++
          (if m.name ∈ names then ["Duplicate METRIC name: " ++ m.name] else []),
        warnings := s.warnings ++
          (if !c.isUpper then
            ["METRIC name '" ++ m.name ++ "' should start with uppercase (PascalCase)"] else []) ++
          metricNegWarn m ++
          (if m.value > 1 && strContains "Risk" m.name then
            ["METRIC " ++ m.name ++ " appears to be a risk/drift metric but value > 1.0"]
           else []) }) := by
  unfold vMetricStep
  rw [hp]
  rfl

theorem vMetricStep_ast {names : List String} {m : MetricNode} {s : VState}
    {p : List String × VState} (h : vMetricStep names m s = some p) : p.2.ast = s.ast := by
  cases hp : pyIdx0 m.name with
  | none =>
    unfold vMetricStep at h
    rw [hp] at h
    exact Option.noConfusion h
  | some c =>
    rw [vMetricStep_eq hp] at h
    injection h with h
    subst h
    rfl

theorem vMetricsLoop_ast : ∀ (ms : List MetricNode) (names : List String) (s r : VState),
    vMetricsLoop names ms s = some r → r.ast = s.ast
  | [], _, s, r, h => by
    injection h with h
    subst h
    rfl
  | m :: ms, names, s, r, h => by
    unfold vMetricsLoop at h
    split at h
    · exact Option.noConfusion h
    · rename_i names' s' hstep
      rw [vMetricsLoop_ast ms names' s' r h, vMetricStep_ast hstep]

theorem vMetricsLoop_some : ∀ (ms : List MetricNode) (names : List String) (s : VState),
    (∀ m ∈ ms, m.name ≠ "") → ∃ r, vMetricsLoop names ms s = some r
  | [], _, s, _ => ⟨s, rfl⟩
  | m :: ms, names, s, hall => by
    have hd : m.name.data ≠ [] := str_data_ne (hall m (by simp))
    obtain ⟨c, cs, hcons⟩ := List.exists_cons_of_ne_nil hd
    have hp : pyIdx0 m.name = some c := by simp [pyIdx0, hcons]
    obtain ⟨r, hr⟩ :=
      vMetricsLoop_some ms (names ++ [m.name]) _ (fun m' hm' => hall m' (by simp [hm']))
    exact ⟨r, by rw [vMetricsLoop, vMetricStep_eq hp]; exact hr⟩

theorem vRMetricStep_eq {metricNames rnames : List String} {r : RMetricNode} {s : VState} {c : Char}
    (hp : pyIdx0 r.name = some c) :
    vRMetricStep metricNames rnames r s = some (rnames ++ [r.name],
      { s with
        errors := s.errors ++
          (if r.name ∈ rnames then ["Duplicate RMetric name: " ++ r.name] else []) ++
          (exprTokens r.expr).flatMap (rmetricTokenErr metricNames (rnames ++ [r.name]) r.name) ++
          (if strContains r.name r.expr then
            ["RMetric " ++ r.name ++ " contains circular reference to itself"] else []),
        warnings := s.warnings ++
          (if !c.isUpper then
            ["RMetric name '" ++ r.name ++ "' should start with uppercase (PascalCase)"]
           else []) }) := by
  unfold vRMetricStep
  rw [hp]
  rfl

theorem vRMetricStep_ast {metricNames rnames : List String} {r : RMetricNode} {s : VState}
    {p : List String × VState} (h : vRMetricStep metricNames rnames r s = some p) :
    p.2.ast = s.ast := by
  cases hp : pyIdx0 r.name with
  | none =>
    unfold vRMetricStep at h
    rw [hp] at h
    exact Option.noConfusion h
  | some c =>
    rw [vRMetricStep_eq hp] at h
    injection h with h
    subst h
    rfl

theorem vRMetricsLoop_ast (metricNames : List String) :
    ∀ (rs : List RMetricNode) (rnames : List String) (s r : VState),
    vRMetricsLoop metricNames rnames rs s = some r → r.ast = s.ast
  | [], _, s, r, h => by
    injection h with h
    subst h
    rfl
  | rm :: rs, rnames, s, r, h => by
    unfold vRMetricsLoop at h
    split at h
    · exact Option.noConfusion h
    · rename_i names' s' hstep
      rw [vRMetricsLoop_ast metricNames rs names' s' r h, vRMetricStep_ast hstep]

theorem vRMetricsLoop_some (metricNames : List String) :
    ∀ (rs : List RMetricNode) (rnames : List String) (s : VState),
    (∀ r ∈ rs, r.name ≠ "") → ∃ r2, vRMetricsLoop metricNames rnames rs s = some r2
  | [], _, s, _ => ⟨s, rfl⟩
  | rm :: rs, rnames, s, hall => by
    have hd : rm.name.data ≠ [] := str_data_ne (hall rm (by simp))
    obtain ⟨c, cs, hcons⟩ := List.exists_cons_of_ne_nil hd
    have hp : pyIdx0 rm.name = some c := by simp [pyIdx0, hcons]
    obtain ⟨r2, hr⟩ :=
      vRMetricsLoop_some metricNames rs (rnames ++ [rm.name]) _
        (fun r' hr' => hall r' (by simp [hr']))
    exact ⟨r2, by rw [vRMetricsLoop, vRMetricStep_eq hp]; exact hr⟩

theorem vTriggerStep_ast (metricNames : List String) (t : TriggerNode) (s : VState) :
    (vTriggerStep metricNames t s).ast = s.ast := by
  unfold vTriggerStep
  split <;> rfl

theorem vTriggers_ast (s : VState) : (vTriggers s).ast = s.ast := by
  unfold vTriggers
  generalize s.ast.triggers = ts
  induction ts generalizing s with
  | nil => rfl
  | cons t ts ih =>
    rw [List.foldl_cons]
    rw [ih (vTriggerStep (s.ast.metrics.map (fun m => m.name)) t s)]
    exact vTriggerStep_ast _ _ _

theorem vVariants_ast (s : VState) : (vVariants s).ast = s.ast := by
  unfold vVariants
  generalize s.ast.variants = vs
  induction vs generalizing s with
  | nil => rfl
  | cons v vs ih =>
    rw [List.foldl_cons, ih]

theorem vOutput_ast (s : VState) : (vOutput s).ast = s.ast := by
  unfold vOutput
  split <;> rfl

theorem vIdRefs_ast (s : VState) : (vIdRefs s).ast = s.ast := by
  unfold vIdRefs
  generalize s.ast.rmetrics = rs
  generalize (s.ast.metrics.map (fun m => m.name)) = ns
  induction rs generalizing s with
  | nil => rfl
  | cons r rs ih =>
    rw [List.foldl_cons, ih]

/-- `validate` never reassigns `self.ast`: the state's AST survives the whole
check battery unchanged. -/
theorem runValidate_ast {s r : VState} (h : runValidate s = some r) : r.ast = s.ast := by
  unfold runValidate at h
  obtain ⟨s3, h3, hrest⟩ := bindChain h
  obtain ⟨s4, h4, hrest2⟩ := bindChain hrest
  obtain ⟨s5, h5, hfin⟩ := Option.map_eq_some'.1 hrest2
  subst hfin
  rw [vIdRefs_ast, vOutput_ast, vVariants_ast, vTriggers_ast]
  rw [vRMetricsLoop_ast _ _ _ _ _ h5, vMetricsLoop_ast _ _ _ _ h4,
    vGoalsLoop_ast _ _ _ _ h3, vPersona_ast, vMandatory_ast]

/-- On an AST whose goal, metric and derived-metric names are all nonempty
(in particular on any parser-produced AST), `validate` returns a result. -/
theorem validate_some {ast : ROIDSLAST}
    (hg : ∀ g ∈ ast.goals, g.name ≠ "")
    (hm : ∀ m ∈ ast.metrics, m.name ≠ "")
    (hr : ∀ r ∈ ast.rmetrics, r.name ≠ "") :
    ∃ es ws, validate ast = some (es, ws) := by
  have h1 : (vPersona (vMandatory ⟨ast, [], []⟩)).ast = ast := by
    rw [vPersona_ast, vMandatory_ast]
  obtain ⟨s3, h3⟩ := vGoalsLoop_some (vPersona (vMandatory ⟨ast, [], []⟩)).ast.goals []
    (vPersona (vMandatory ⟨ast, [], []⟩)) (by rw [h1]; exact hg)
  have h3' : vGoals (vPersona (vMandatory ⟨ast, [], []⟩)) = some s3 := h3
  have h13 : s3.ast = ast := by rw [vGoalsLoop_ast _ _ _ _ h3, h1]
  obtain ⟨s4, h4⟩ := vMetricsLoop_some s3.ast.metrics [] s3 (by rw [h13]; exact hm)
  have h4' : vMetrics s3 = some s4 := h4
  have h14 : s4.ast = ast := by rw [vMetricsLoop_ast _ _ _ _ h4, h13]
  obtain ⟨s5, h5⟩ := vRMetricsLoop_some (s4.ast.metrics.map (fun m => m.name))
    s4.ast.rmetrics [] s4 (by rw [h14]; exact hr)
  have h5' : vRMetrics s4 = some s5 := h5
  refine ⟨(vIdRefs (vOutput (vVariants (vTriggers s5)))).errors,
    (vIdRefs (vOutput (vVariants (vTriggers s5)))).warnings, ?_⟩
  unfold validate runValidate
  rw [h3', Option.some_bind, h4', Option.some_bind, h5']
  rfl

/-- Whether the dispatch chain of `parse` recognises a line: a comment
marker or one of the directive keyword prefixes, in source order. -/
def recognizesDirective (l : List Char) : Bool :=
  startsWith l "#" ||
  startsWith l "//" ||
  startsWith l "PERSONA" ||
  startsWith l "GOAL" ||
  (startsWith l "METRIC" && !startsWith l "RMetric") ||
  startsWith l "RMetric" ||
  startsWith l "WHEN" ||
  startsWith l "VARIANT" ||
  startsWith l "CREDENTIAL" ||
  startsWith l "CASE_STUDY" ||
  startsWith l "SERVICE" ||
  startsWith l "TRAINING" ||
  startsWith l "VROI_INPUT" ||
  startsWith l "VROI_OUTPUT" ||
  startsWith l "STAT" ||
  startsWith l "MICROTRAINING" ||
  startsWith l "SEO_" ||
  startsWith l "CONTACT_" ||
  startsWith l "SK_TAG" ||
  startsWith l "OUTPUT"

/-- A line matching no comment marker and no directive prefix raises the
unknown-syntax error carrying `self.current_line + 1` — the 1-based position
of the line among the retained (non-blank, stripped) lines. -/
theorem parseStep_unknown {i : Nat} {l : List Char} {a : ROIDSLAST}
    (h : recognizesDirective l = false) :
    parseStep i l a =
      .error (.synErr ("Unknown syntax at line " ++ Nat.repr (i + 1) ++ ": " ++ ⟨l⟩)) := by
  unfold recognizesDirective at h
  rw [Bool.or_eq_false_iff] at h
  obtain ⟨h, hx20⟩ := h
  rw [Bool.or_eq_false_iff] at h
  obtain ⟨h, hx19⟩ := h
  rw [Bool.or_eq_false_iff] at h
  obtain ⟨h, hx18⟩ := h
  rw [Bool.or_eq_false_iff] at h
  obtain ⟨h, hx17⟩ := h
  rw [Bool.or_eq_false_iff] at h
  obtain ⟨h, hx16⟩ := h
  rw [Bool.or_eq_false_iff] at h
  obtain ⟨h, hx15⟩ := h
  rw [Bool.or_eq_false_iff] at h
  obtain ⟨h, hx14⟩ := h
  rw [Bool.or_eq_false_iff] at h
  obtain ⟨h, hx13⟩ := h
  rw [Bool.or_eq_false_iff] at h
  obtain ⟨h, hx12⟩ := h
  rw [Bool.or_eq_false_iff] at h
  obtain ⟨h, hx11⟩ := h
  rw [Bool.or_eq_false_iff] at h
  obtain ⟨h, hx10⟩ := h
  rw [Bool.or_eq_false_iff] at h
  obtain ⟨h, hx9⟩ := h
  rw [Bool.or_eq_false_iff] at h
  obtain ⟨h, hx8⟩ := h
  rw [Bool.or_eq_false_iff] at h
  obtain ⟨h, hx7⟩ := h
  rw [Bool.or_eq_false_iff] at h
  obtain ⟨h, hx6⟩ := h
  rw [Bool.or_eq_false_iff] at h
  obtain ⟨h, hx5⟩ := h
  rw [Bool.or_eq_false_iff] at h
  obtain ⟨h, hx4⟩ := h
  rw [Bool.or_eq_false_iff] at h
  obtain ⟨h, hx3⟩ := h
  rw [Bool.or_eq_false_iff] at h
  obtain ⟨h, hx2⟩ := h
  have hx1 := h
  unfold parseStep
  rw [if_neg (by simp [hx1, hx2])]
  rw [if_neg (by simp [hx3])]
  rw [if_neg (by simp [hx4])]
  rw [if_neg (by simp [hx5])]
  rw [if_neg (by simp [hx6])]
  rw [if_neg (by simp [hx7])]
  rw [if_neg (by simp [hx8])]
  rw [if_neg (by simp [hx9])]
  rw [if_neg (by simp [hx10])]
  rw [if_neg (by simp [hx11])]
  rw [if_neg (by simp [hx12])]
  rw [if_neg (by simp [hx13])]
  rw [if_neg (by simp [hx14])]
  rw [if_neg (by simp [hx15])]
  rw [if_neg (by simp [hx16])]
  rw [if_neg (by simp [hx17])]
  rw [if_neg (by simp [hx18])]
  rw [if_neg (by simp [hx19])]
  rw [if_neg (by simp [hx20])]

/-- For every recognised line the parser's behaviour is independent of the
line index: directive-specific grammar errors carry only the offending line
text, never a line number. -/
theorem parseStep_idx {i j : Nat} {l : List Char} {a : ROIDSLAST}
    (h : recognizesDirective l = true) : parseStep i l a = parseStep j l a := by
  unfold parseStep
  by_cases hc1 : (startsWith l "#" || startsWith l "//") = true
  · rw [if_pos hc1, if_pos hc1]
  rw [if_neg hc1, if_neg hc1]
  by_cases hc2 : startsWith l "PERSONA" = true
  · rw [if_pos hc2, if_pos hc2]
  rw [if_neg hc2, if_neg hc2]
  by_cases hc3 : startsWith l "GOAL" = true
  · rw [if_pos hc3, if_pos hc3]
  rw [if_neg hc3, if_neg hc3]
  by_cases hc4 : (startsWith l "METRIC" && !startsWith l "RMetric") = true
  · rw [if_pos hc4, if_pos hc4]
  rw [if_neg hc4, if_neg hc4]
  by_cases hc5 : startsWith l "RMetric" = true
  · rw [if_pos hc5, if_pos hc5]
  rw [if_neg hc5, if_neg hc5]
  by_cases hc6 : startsWith l "WHEN" = true
  · rw [if_pos hc6, if_pos hc6]
  rw [if_neg hc6, if_neg hc6]
  by_cases hc7 : startsWith l "VARIANT" = true
  · rw [if_pos hc7, if_pos hc7]
  rw [if_neg hc7, if_neg hc7]
  by_cases hc8 : startsWith l "CREDENTIAL" = true
  · rw [if_pos hc8, if_pos hc8]
  rw [if_neg hc8, if_neg hc8]
  by_cases hc9 : startsWith l "CASE_STUDY" = true
  · rw [if_pos hc9, if_pos hc9]
  rw [if_neg hc9, if_neg hc9]
  by_cases hc10 : startsWith l "SERVICE" = true
  · rw [if_pos hc10, if_pos hc10]
  rw [if_neg hc10, if_neg hc10]
  by_cases hc11 : startsWith l "TRAINING" = true
  · rw [if_pos hc11, if_pos hc11]
  rw [if_neg hc11, if_neg hc11]
  by_cases hc12 : startsWith l "VROI_INPUT" = true
  · rw [if_pos hc12, if_pos hc12]
  rw [if_neg hc12, if_neg hc12]
  by_cases hc13 : startsWith l "VROI_OUTPUT" = true
  · rw [if_pos hc13, if_pos hc13]
  rw [if_neg hc13, if_neg hc13]
  by_cases hc14 : startsWith l "STAT" = true
  · rw [if_pos hc14, if_pos hc14]
  rw [if_neg hc14, if_neg hc14]
  by_cases hc15 : startsWith l "MICROTRAINING" = true
  · rw [if_pos hc15, if_pos hc15]
  rw [if_neg hc15, if_neg hc15]
  by_cases hc16 : startsWith l "SEO_" = true
  · rw [if_pos hc16, if_pos hc16]
  rw [if_neg hc16, if_neg hc16]
  by_cases hc17 : startsWith l "CONTACT_" = true
  · rw [if_pos hc17, if_pos hc17]
  rw [if_neg hc17, if_neg hc17]
  by_cases hc18 : startsWith l "SK_TAG" = true
  · rw [if_pos hc18, if_pos hc18]
  rw [if_neg hc18, if_neg hc18]
  by_cases hc19 : startsWith l "OUTPUT" = true
  · rw [if_pos hc19, if_pos hc19]
  rw [if_neg hc19, if_neg hc19]
  exfalso
  unfold recognizesDirective at h
  simp only [Bool.or_eq_true] at h
  rcases h with ((((((((((((((((((h | h) | h) | h) | h) | h) | h) | h) | h) | h) | h) | h) | h) | h) | h) | h) | h) | h) | h) | h
  · exact hc1 (by simp [h])
  · exact hc1 (by simp [h])
  · exact hc2 (by simp [h])
  · exact hc3 (by simp [h])
  · exact hc4 (by simp [h])
  · exact hc5 (by simp [h])
  · exact hc6 (by simp [h])
  · exact hc7 (by simp [h])
  · exact hc8 (by simp [h])
  · exact hc9 (by simp [h])
  · exact hc10 (by simp [h])
  · exact hc11 (by simp [h])
  · exact hc12 (by simp [h])
  · exact hc13 (by simp [h])
  · exact hc14 (by simp [h])
  · exact hc15 (by simp [h])
  · exact hc16 (by simp [h])
  · exact hc17 (by simp [h])
  · exact hc18 (by simp [h])
  · exact hc19 (by simp [h])

/-- Fail-fast: if every retained line before position `k` parses (for any
accumulated AST) and the line at position `k` raises `e` (for any accumulated
AST), the whole loop raises `e`, regardless of the lines after `k`. -/
theorem parseGo_fail_fast : ∀ (ls : List (List Char)) (i : Nat) (a : ROIDSLAST) (k : Nat)
    (hk : k < ls.length) (e : PyError),
    (∀ (j : Nat) (hj : j < k) (b : ROIDSLAST),
      ∃ b', parseStep (i + j) (ls.get ⟨j, by omega⟩) b = .ok b') →
    (∀ b, parseStep (i + k) (ls.get ⟨k, hk⟩) b = .error e) →
    parseGo i ls a = .error e
  | [], _, _, k, hk, _, _, _ => absurd hk (by simp)
  | l :: ls, i, a, 0, hk, e, _, herr => by
    have h0 := herr a
    rw [Nat.add_zero] at h0
    have h0' : parseStep i l a = .error e := h0
    unfold parseGo
    rw [h0']
  | l :: ls, i, a, k + 1, hk, e, hsteps, herr => by
    obtain ⟨a1, h1⟩ := hsteps 0 (by omega) a
    rw [Nat.add_zero] at h1
    have h1' : parseStep i l a = .ok a1 := h1
    unfold parseGo
    rw [h1']
    refine parseGo_fail_fast ls (i + 1) a1 k (by simpa using Nat.lt_of_succ_lt_succ hk) e
      (fun j hj b => ?_) (fun b => ?_)
    · obtain ⟨b', hb⟩ := hsteps (j + 1) (by omega) b
      rw [show i + (j + 1) = i + 1 + j from by omega] at hb
      exact ⟨b', hb⟩
    · have hb := herr b
      rw [show i + (k + 1) = i + 1 + k from by omega] at hb
      exact hb

/-- The one condition under which `parse` raises a `ValueError` instead of a
`SyntaxError`: a `METRIC` line whose regex matched but whose digits-and-dots
numeral is not a valid float literal (so Python's `float()` raises). -/
def metricValueFails (l : List Char) : Bool :=
  startsWith l "METRIC" && !startsWith l "RMetric" &&
    (match stripLit (chars "METRIC") l >>= matchMetricNum with
     | some (_, num) => (pyFloatOfNum num).isNone
     | none => false)

theorem parsePersona_no_val {l : List Char} {a : ROIDSLAST} {m : String}
    (h : parsePersona l a = .error (.valErr m)) : False := by
  unfold parsePersona at h
  split at h
  · injection h with h
    exact PyError.noConfusion h
  · exact Except.noConfusion h

theorem parseGoal_no_val {l : List Char} {a : ROIDSLAST} {m : String}
    (h : parseGoal l a = .error (.valErr m)) : False := by
  unfold parseGoal at h
  split at h
  · injection h with h
    exact PyError.noConfusion h
  · exact Except.noConfusion h

theorem parseRMetric_no_val {l : List Char} {a : ROIDSLAST} {m : String}
    (h : parseRMetric l a = .error (.valErr m)) : False := by
  unfold parseRMetric at h
  split at h
  · injection h with h
    exact PyError.noConfusion h
  · exact Except.noConfusion h

theorem parseTrigger_no_val {l : List Char} {a : ROIDSLAST} {m : String}
    (h : parseTrigger l a = .error (.valErr m)) : False := by
  unfold parseTrigger at h
  split at h
  · injection h with h
    exact PyError.noConfusion h
  · exact Except.noConfusion h

theorem parseVariant_no_val {l : List Char} {a : ROIDSLAST} {m : String}
    (h : parseVariant l a = .error (.valErr m)) : False := by
  unfold parseVariant at h
  split at h
  · injection h with h
    exact PyError.noConfusion h
  · exact Except.noConfusion h

theorem parseSkTag_no_val {l : List Char} {a : ROIDSLAST} {m : String}
    (h : parseSkTag l a = .error (.valErr m)) : False := by
  unfold parseSkTag at h
  split at h
  · injection h with h
    exact PyError.noConfusion h
  · exact Except.noConfusion h

theorem parseFactTable_no_val {key err : String} {l : List Char} {a : ROIDSLAST} {m : String}
    {get : ROIDSLAST → List (String × String)}
    {set : ROIDSLAST → List (String × String) → ROIDSLAST}
    (h : parseFactTable key err get set l a = .error (.valErr m)) : False := by
  unfold parseFactTable at h
  split at h
  · injection h with h
    exact PyError.noConfusion h
  · exact Except.noConfusion h

theorem parsePrefixTable_no_val {key err : String} {l : List Char} {a : ROIDSLAST} {m : String}
    {get : ROIDSLAST → List (String × String)}
    {set : ROIDSLAST → List (String × String) → ROIDSLAST}
    (h : parsePrefixTable key err get set l a = .error (.valErr m)) : False := by
  unfold parsePrefixTable at h
  split at h
  · injection h with h
    exact PyError.noConfusion h
  · exact Except.noConfusion h

theorem parseOutput_no_val {l : List Char} {a : ROIDSLAST} {m : String}
    (h : parseOutput l a = .error (.valErr m)) : False := by
  unfold parseOutput at h
  split at h
  · injection h with h
    exact PyError.noConfusion h
  · split at h
    · exact Except.noConfusion h
    · injection h with h
      exact PyError.noConfusion h

theorem parseMetric_val {l : List Char} {a : ROIDSLAST} {m : String}
    (h : parseMetric l a = .error (.valErr m)) :
    (match stripLit (chars "METRIC") l >>= matchMetricNum with
     | some (_, num) => (pyFloatOfNum num).isNone
     | none => false) = true := by
  unfold parseMetric at h
  split at h
  · injection h with h
    exact PyError.noConfusion h
  · rename_i nv heq
    split at h
    · rename_i hfl
      rw [heq]
      simp [hfl]
    · exact Except.noConfusion h

/-- A `ValueError` can only escape from the `METRIC` handler's `float()`
call; every other failure of `parseStep` is a `SyntaxError`. -/
theorem parseStep_valErr {i : Nat} {l : List Char} {a : ROIDSLAST} {m : String}
    (h : parseStep i l a = .error (.valErr m)) : metricValueFails l = true := by
  unfold parseStep at h
  by_cases hc1 : (startsWith l "#" || startsWith l "//") = true
  · rw [if_pos hc1] at h
    exact Except.noConfusion h
  rw [if_neg hc1] at h
  by_cases hc2 : startsWith l "PERSONA" = true
  · rw [if_pos hc2] at h
    exact (parsePersona_no_val h).elim
  rw [if_neg hc2] at h
  by_cases hc3 : startsWith l "GOAL" = true
  · rw [if_pos hc3] at h
    exact (parseGoal_no_val h).elim
  rw [if_neg hc3] at h
  by_cases hc4 : (startsWith l "METRIC" && !startsWith l "RMetric") = true
  · rw [if_pos hc4] at h
    have hm := parseMetric_val h
    unfold metricValueFails
    simp only [hc4, Bool.true_and]
    exact hm
  rw [if_neg hc4] at h
  by_cases hc5 : startsWith l "RMetric" = true
  · rw [if_pos hc5] at h
    exact (parseRMetric_no_val h).elim
  rw [if_neg hc5] at h
  by_cases hc6 : startsWith l "WHEN" = true
  · rw [if_pos hc6] at h
    exact (parseTrigger_no_val h).elim
  rw [if_neg hc6] at h
  by_cases hc7 : startsWith l "VARIANT" = true
  · rw [if_pos hc7] at h
    exact (parseVariant_no_val h).elim
  rw [if_neg hc7] at h
  by_cases hc8 : startsWith l "CREDENTIAL" = true
  · rw [if_pos hc8] at h
    exact (parseFactTable_no_val h).elim
  rw [if_neg hc8] at h
  by_cases hc9 : startsWith l "CASE_STUDY" = true
  · rw [if_pos hc9] at h
    exact (parseFactTable_no_val h).elim
  rw [if_neg hc9] at h
  by_cases hc10 : startsWith l "SERVICE" = true
  · rw [if_pos hc10] at h
    exact (parseFactTable_no_val h).elim
  rw [if_neg hc10] at h
  by_cases hc11 : startsWith l "TRAINING" = true
  · rw [if_pos hc11] at h
    exact (parseFactTable_no_val h).elim
  rw [if_neg hc11] at h
  by_cases hc12 : startsWith l "VROI_INPUT" = true
  · rw [if_pos hc12] at h
    exact (parseFactTable_no_val h).elim
  rw [if_neg hc12] at h
  by_cases hc13 : startsWith l "VROI_OUTPUT" = true
  · rw [if_pos hc13] at h
    exact (parseFactTable_no_val h).elim
  rw [if_neg hc13] at h
  by_cases hc14 : startsWith l "STAT" = true
  · rw [if_pos hc14] at h
    exact (parseFactTable_no_val h).elim
  rw [if_neg hc14] at h
  by_cases hc15 : startsWith l "MICROTRAINING" = true
  · rw [if_pos hc15] at h
    exact (parseFactTable_no_val h).elim
  rw [if_neg hc15] at h
  by_cases hc16 : startsWith l "SEO_" = true
  · rw [if_pos hc16] at h
    exact (parsePrefixTable_no_val h).elim
  rw [if_neg hc16] at h
  by_cases hc17 : startsWith l "CONTACT_" = true
  · rw [if_pos hc17] at h
    exact (parsePrefixTable_no_val h).elim
  rw [if_neg hc17] at h
  by_cases hc18 : startsWith l "SK_TAG" = true
  · rw [if_pos hc18] at h
    exact (parseSkTag_no_val h).elim
  rw [if_neg hc18] at h
  by_cases hc19 : startsWith l "OUTPUT" = true
  · rw [if_pos hc19] at h
    exact (parseOutput_no_val h).elim
  rw [if_neg hc19] at h
  injection h with h
  exact PyError.noConfusion h

theorem parseGo_valErr : ∀ (ls : List (List Char)) (i : Nat) (a : ROIDSLAST) (m : String),
    parseGo i ls a = .error (.valErr m) → ∃ l ∈ ls, metricValueFails l = true
  | [], _, _, _, h => Except.noConfusion h
  | l :: ls, i, a, m, h => by
    unfold parseGo at h
    split at h
    · rename_i e he
      injection h with h
      subst h
      exact ⟨l, by simp, parseStep_valErr he⟩
    · obtain ⟨l2, hl2, hf⟩ := parseGo_valErr ls (i + 1) _ m h
      exact ⟨l2, by simp [hl2], hf⟩

/-! ## String-message injectivity helpers -/

theorem str_ne_of_head {a b : String} (h : a.data.head? ≠ b.data.head?) : a ≠ b :=
  fun hc => h (by rw [hc])

theorem str_append_inj {A u t : String} (h : A ++ u = A ++ t) : u = t := by
  have hd : A.data ++ u.data = A.data ++ t.data := congrArg String.data h
  have := List.append_cancel_left hd
  cases u with
  | mk ud =>
    cases t with
    | mk td =>
      cases this
      rfl

theorem str_sandwich_inj {A B u t : String} (h : A ++ u ++ B = A ++ t ++ B) : u = t := by
  have hd : A.data ++ u.data ++ B.data = A.data ++ t.data ++ B.data := congrArg String.data h
  have h2 := List.append_cancel_right hd
  have h3 := List.append_cancel_left h2
  cases u with
  | mk ud =>
    cases t with
    | mk td =>
      cases h3
      rfl

/-! ## Evaluation of `validate` on a document with a single RMetric -/

/-- `validate` on an otherwise-empty AST holding the single derived metric
`⟨n, e⟩`: three mandatory-field errors, then one undefined-reference error per
occurrence of each unresolved capitalized token of `e`, then the circular
check; warnings are the persona advice, the naming check, and the
reserved-vocabulary-aware secondary sweep. -/
theorem validate_singleRMetric {n e : String} {c : Char} (hp : pyIdx0 n = some c) :
    validate { rmetrics := [⟨n, e⟩] } = some
      (["At least 1 GOAL is required", "At least 1 METRIC is required",
        "OUTPUT declaration is required"] ++
        (exprTokens e).flatMap (rmetricTokenErr [] [n] n) ++
        (if strContains n e then
          ["RMetric " ++ n ++ " contains circular reference to itself"] else []),
       (["PERSONA is recommended but not mandatory"] ++
        (if !c.isUpper then
          ["RMetric name '" ++ n ++ "' should start with uppercase (PascalCase)"] else [])) ++
        (exprTokens e).flatMap (idRefTokenWarn [] n)) := by
  have hstep := @vRMetricStep_eq [] [] ⟨n, e⟩
    ⟨{ rmetrics := [⟨n, e⟩] },
      ["At least 1 GOAL is required", "At least 1 METRIC is required",
        "OUTPUT declaration is required"],
      ["PERSONA is recommended but not mandatory"]⟩ c hp
  unfold validate runValidate
  rw [show vGoals (vPersona (vMandatory ⟨{ rmetrics := [⟨n, e⟩] }, [], []⟩)) =
      some ⟨{ rmetrics := [⟨n, e⟩] },
        ["At least 1 GOAL is required", "At least 1 METRIC is required",
          "OUTPUT declaration is required"],
        ["PERSONA is recommended but not mandatory"]⟩ from rfl, Option.some_bind]
  rw [show vMetrics ⟨{ rmetrics := [⟨n, e⟩] },
      ["At least 1 GOAL is required", "At least 1 METRIC is required",
        "OUTPUT declaration is required"],
      ["PERSONA is recommended but not mandatory"]⟩ =
      some ⟨{ rmetrics := [⟨n, e⟩] },
        ["At least 1 GOAL is required", "At least 1 METRIC is required",
          "OUTPUT declaration is required"],
        ["PERSONA is recommended but not mandatory"]⟩ from rfl, Option.some_bind]
  unfold vRMetrics vRMetricsLoop
  rw [show (({ rmetrics := [⟨n, e⟩] } : ROIDSLAST).metrics.map (fun m => m.name)) = [] from rfl]
  rw [hstep]
  rfl

theorem data_append (a b : String) : (a ++ b).data = a.data ++ b.data := rfl

theorem ref_ne_circ (n t : String) :
    rmetricUndefMsg n t ≠ "RMetric " ++ n ++ " contains circular reference to itself" := by
  intro h
  unfold rmetricUndefMsg at h
  have hd : ("RMetric " ++ n).data ++ (" references undefined METRIC: ".data ++ t.data) =
      ("RMetric " ++ n).data ++ " contains circular reference to itself".data := by
    have hc := congrArg String.data h
    simp only [data_append, List.append_assoc] at hc
    exact hc
  have h2 := List.append_cancel_left hd
  have h3 : (" references undefined METRIC: ".data ++ t.data).get? 1 =
      (" contains circular reference to itself".data).get? 1 := by rw [h2]
  rw [List.get?_append (by decide)] at h3
  exact absurd h3 (by decide)

theorem count_tokenErr (n t : String) (hne : t ≠ n) : ∀ ts : List String,
    (ts.flatMap (rmetricTokenErr [] [n] n)).count (rmetricUndefMsg n t) = ts.count t
  | [] => rfl
  | u :: ts => by
    rw [List.flatMap_cons, List.count_append, count_tokenErr n t hne ts, List.count_cons]
    unfold rmetricTokenErr
    by_cases hu : u = t
    · subst hu
      rw [if_pos (by simp [hne])]
      simp [List.count_cons]
      omega
    · by_cases hmem : u ∈ ([n] : List String)
      · rw [if_neg (by simp [List.mem_singleton.1 hmem])]
        simp [hu]
      · rw [if_pos (by simp [List.mem_singleton] at hmem ⊢; exact hmem)]
        have hmsg : rmetricUndefMsg n u ≠ rmetricUndefMsg n t :=
          fun hc => hu (str_append_inj hc)
        simp [hu, List.count_cons, hmsg]

/-! ## Single-line parse evaluation helpers (for the `OUTPUT` claim) -/

theorem word_not_space {c : Char} (h : isWordChar c = true) : isPySpace c = false := by
  by_contra hs
  rw [Bool.not_eq_false] at hs
  unfold isPySpace at hs
  simp only [Bool.or_eq_true, decide_eq_true_eq] at hs
  rcases hs with ((((h1 | h1) | h1) | h1) | h1) | h1 <;> subst h1 <;> exact absurd h (by decide)

theorem word_ne_nl {c : Char} (h : isWordChar c = true) : c ≠ '\n' := by
  intro hc
  subst hc
  exact absurd h (by decide)

theorem splitOnNl_single {cs : List Char} (h : ∀ c ∈ cs, c ≠ '\n') :
    splitOnNl cs = [cs] := by
  induction cs with
  | nil => rfl
  | cons c cs ih =>
    unfold splitOnNl
    rw [ih (fun d hd => h d (by simp [hd]))]
    simp [h c (by simp)]

theorem dropWhile_head_eq_self {p : Char → Bool} {cs : List Char}
    (h : ∀ c, cs.head? = some c → p c = false) : cs.dropWhile p = cs := by
  cases cs with
  | nil => rfl
  | cons c cs' =>
    rw [List.dropWhile_cons, h c rfl]
    simp

theorem takeWhile_eq_self {p : Char → Bool} : ∀ {cs : List Char},
    (∀ c ∈ cs, p c = true) → cs.takeWhile p = cs
  | [], _ => rfl
  | c :: cs, h => by
    rw [List.takeWhile_cons, h c (by simp)]
    simp only [if_true]
    rw [takeWhile_eq_self (fun d hd => h d (by simp [hd]))]

theorem dropWhile_all_false {p : Char → Bool} : ∀ {cs : List Char},
    (∀ c ∈ cs, p c = true) → cs.dropWhile p = []
  | [], _ => rfl
  | c :: cs, h => by
    rw [List.dropWhile_cons, h c (by simp)]
    simp only [if_true]
    exact dropWhile_all_false (fun d hd => h d (by simp [hd]))

/-! ## Claim theorems -/

/-- C1 (amended): (1) parsing fails at the first invalid retained line
regardless of content after it; (2) the unknown-directive error's line number
is the 1-based position of the line among the retained non-blank stripped
lines — equal to the original source line number only when no blank line
precedes (see the counterexample); (3) for recognised lines the outcome is
index-independent: directive-specific grammar errors carry only the offending
line text, no line number. -/
theorem claim_C1 :
    (∀ (text : String) (k : Nat) (e : PyError) (hk : k < (pyLines (chars text)).length),
      (∀ (j : Nat) (hj : j < k) (b : ROIDSLAST),
        ∃ b', parseStep j ((pyLines (chars text)).get ⟨j, by omega⟩) b = .ok b') →
      (∀ b, parseStep k ((pyLines (chars text)).get ⟨k, hk⟩) b = .error e) →
      parse text = .error e) ∧
    (∀ (i : Nat) (l : List Char) (a : ROIDSLAST), recognizesDirective l = false →
      parseStep i l a =
        .error (.synErr ("Unknown syntax at line " ++ Nat.repr (i + 1) ++ ": " ++ ⟨l⟩))) ∧
    (∀ (i j : Nat) (l : List Char) (a : ROIDSLAST), recognizesDirective l = true →
      parseStep i l a = parseStep j l a) := by
  refine ⟨?_, fun i l a h => parseStep_unknown h, fun i j l a h => parseStep_idx h⟩
  intro text k e hk hsteps herr
  unfold parse
  refine parseGo_fail_fast (pyLines (chars text)) 0 {} k hk e (fun j hj b => ?_) (fun b => ?_)
  · rw [Nat.zero_add]
    exact hsteps j hj b
  · rw [Nat.zero_add]
    exact herr b

/-- C1, counterexample to the claim as stated: in `"\nZZZ"` the first invalid
line `ZZZ` is original source line 2 (second piece of the newline split), yet
the error reports line 1, because blank lines are dropped before numbering. -/
theorem claim_C1_cx :
    parse "\nZZZ" = .error (.synErr "Unknown syntax at line 1: ZZZ") ∧
    splitOnNl (chars "\nZZZ") = [[], chars "ZZZ"] := ⟨rfl, rfl⟩

theorem claim_C1_witness :
    parse "GOAL A: \"x\"\nZZZ" = .error (.synErr "Unknown syntax at line 2: ZZZ") := by
  refine claim_C1.1 "GOAL A: \"x\"\nZZZ" 1 _ (by decide) (fun j hj b => ?_) (fun b => ?_)
  · have hj0 : j = 0 := by omega
    subst hj0
    exact ⟨_, rfl⟩
  · exact rfl

/-- C4 (amended): wherever `parse` fails, the exception is a `SyntaxError` —
except that a `METRIC` line whose matched digits-and-dots numeral is not a
valid float literal (e.g. `1.2.3`) makes `float()` raise a `ValueError`,
which escapes `parse` unconverted (see the counterexample). -/
theorem claim_C4 (text : String) (e : PyError) (h : parse text = .error e) :
    (∃ m, e = .synErr m) ∨ ∃ l ∈ pyLines (chars text), metricValueFails l = true := by
  cases e with
  | synErr m => exact Or.inl ⟨m, rfl⟩
  | valErr m => exact Or.inr (parseGo_valErr _ _ _ _ h)

/-- C4, counterexample to the claim as stated: on `METRIC A: 1.2.3` the parse
fails with a `ValueError`, not a `SyntaxError`. -/
theorem claim_C4_cx :
    parse "METRIC A: 1.2.3" =
      .error (.valErr "could not convert string to float: '1.2.3'") := rfl

theorem claim_C4_witness :
    (∃ m, (PyError.synErr "Unknown syntax at line 1: ZZZ") = .synErr m) ∨
      ∃ l ∈ pyLines (chars "ZZZ"), metricValueFails l = true :=
  claim_C4 "ZZZ" _ rfl

/-- C2 (amended): only the warning-level secondary reference sweep
(`_validate_identifier_references`) exempts the reserved vocabulary
{AND, OR, NOT, IF}; the error-level check (`_validate_rmetrics`) treats a
reserved token like any other capitalized token, appending an
undefined-METRIC error whenever it names no declared Metric or
previously-declared DerivedMetric. -/
theorem claim_C2 (n e t : String) (c : Char) (hp : pyIdx0 n = some c)
    (hup : c.isUpper = true) (hres : t ∈ reservedOps) (hne : t ≠ n)
    (hte : t ∈ exprTokens e) :
    ∃ E W, validate { rmetrics := [⟨n, e⟩] } = some (E, W) ∧
      rmetricUndefMsg n t ∈ E ∧
      ("RMetric " ++ n ++ " references '" ++ t ++ "' which is not a declared METRIC") ∉ W := by
  refine ⟨_, _, validate_singleRMetric hp, ?_, ?_⟩
  · refine List.mem_append.2 (Or.inl (List.mem_append.2 (Or.inr ?_)))
    refine List.mem_flatMap.2 ⟨t, hte, ?_⟩
    unfold rmetricTokenErr
    rw [if_pos (by simp [hne])]
    exact List.mem_singleton.2 rfl
  · intro hW
    rcases List.mem_append.1 hW with h1 | h2
    · rcases List.mem_append.1 h1 with h3 | h4
      · have h5 := List.mem_singleton.1 h3
        exact absurd h5 (str_ne_of_head (by
          rw [show ("RMetric " ++ n ++ " references '" ++ t ++
              "' which is not a declared METRIC").data.head? = some 'R' from rfl]
          decide))
      · rw [hup] at h4
        simp at h4
    · rcases List.mem_flatMap.1 h2 with ⟨u, hu, hmem⟩
      unfold idRefTokenWarn at hmem
      rw [if_pos (List.not_mem_nil u)] at hmem
      by_cases hur : u ∈ reservedOps
      · rw [if_neg (not_not_intro hur)] at hmem
        exact absurd hmem (List.not_mem_nil _)
      · rw [if_pos hur] at hmem
        have h6 := List.mem_singleton.1 hmem
        have h7 : t = u := str_sandwich_inj h6
        exact hur (h7 ▸ hres)

/-- C2, counterexample to the claim as stated: the reserved token `IF` in a
derived-metric expression does produce an undefined-METRIC error in the
error-level check. -/
theorem claim_C2_cx :
    validate { rmetrics := [⟨"X", "IF"⟩] } = some
      (["At least 1 GOAL is required", "At least 1 METRIC is required",
        "OUTPUT declaration is required", "RMetric X references undefined METRIC: IF"],
       ["PERSONA is recommended but not mandatory"]) := rfl

theorem claim_C2_witness :
    ∃ E W, validate { rmetrics := [⟨"X", "IF"⟩] } = some (E, W) ∧
      rmetricUndefMsg "X" "IF" ∈ E ∧
      ("RMetric " ++ "X" ++ " references '" ++ "IF" ++
        "' which is not a declared METRIC") ∉ W :=
  claim_C2 "X" "IF" "IF" 'X' rfl rfl (by decide) (by decide) (by decide)

/-- C5 (amended): each undefined capitalized token produces one undefined-
METRIC error per occurrence in the expression, not one per distinct token:
the number of copies of the error message in the full error list equals the
number of occurrences of the token among the expression's capitalized
tokens. -/
theorem claim_C5 (n e t : String) (c : Char) (hp : pyIdx0 n = some c) (hne : t ≠ n) :
    ∃ E W, validate { rmetrics := [⟨n, e⟩] } = some (E, W) ∧
      E.count (rmetricUndefMsg n t) = (exprTokens e).count t := by
  refine ⟨_, _, validate_singleRMetric hp, ?_⟩
  rw [List.count_append, List.count_append]
  have h0 : List.count (rmetricUndefMsg n t)
      ["At least 1 GOAL is required", "At least 1 METRIC is required",
        "OUTPUT declaration is required"] = 0 := by
    rw [List.count_eq_zero]
    intro hmem
    have hr : (rmetricUndefMsg n t).data.head? = some 'R' := rfl
    rcases List.mem_cons.1 hmem with h | h
    · exact str_ne_of_head (by rw [hr]; decide) h
    rcases List.mem_cons.1 h with h | h
    · exact str_ne_of_head (by rw [hr]; decide) h
    rcases List.mem_cons.1 h with h | h
    · exact str_ne_of_head (by rw [hr]; decide) h
    · exact absurd h (List.not_mem_nil _)
  have h2 : List.count (rmetricUndefMsg n t)
      (if strContains n e then
        ["RMetric " ++ n ++ " contains circular reference to itself"] else []) = 0 := by
    split
    · rw [List.count_eq_zero]
      intro hmem
      exact ref_ne_circ n t (List.mem_singleton.1 hmem)
    · rfl
  rw [h0, h2, count_tokenErr n t hne (exprTokens e)]
  omega

/-- C5, counterexample to the claim as stated: the token `Foo`, occurring
twice in one expression, produces two copies of the same error (and two
copies of the secondary warning). -/
theorem claim_C5_cx :
    validate { rmetrics := [⟨"X", "Foo + Foo"⟩] } = some
      (["At least 1 GOAL is required", "At least 1 METRIC is required",
        "OUTPUT declaration is required", "RMetric X references undefined METRIC: Foo",
        "RMetric X references undefined METRIC: Foo"],
       ["PERSONA is recommended but not mandatory",
        "RMetric X references 'Foo' which is not a declared METRIC",
        "RMetric X references 'Foo' which is not a declared METRIC"]) := rfl

theorem claim_C5_witness :
    ∃ E W, validate { rmetrics := [⟨"X", "Foo + Foo"⟩] } = some (E, W) ∧
      E.count (rmetricUndefMsg "X" "Foo") = (exprTokens "Foo + Foo").count "Foo" :=
  claim_C5 "X" "Foo + Foo" "Foo" 'X' rfl (by decide)

/-- C6: for every AST produced by a successful parse, `validate` returns an
`{errors, warnings}` result and never raises an exception (modelled as:
the `Option`-valued validator, whose only partial operations are the `name[0]`
indexings, is `some` on every parser-produced AST). -/
theorem claim_C6 (text : String) (ast : ROIDSLAST) (h : parse text = .ok ast) :
    ∃ es ws, validate ast = some (es, ws) := by
  have hi := parse_ok_inv h
  exact validate_some hi.goalsName hi.metricsName hi.rmetricsName

theorem claim_C6_witness :
    ∃ es ws, validate { goals := [⟨"Cost", "x"⟩] } = some (es, ws) :=
  claim_C6 "GOAL Cost: \"x\"" { goals := [⟨"Cost", "x"⟩] } rfl

/-- C7: running `validate` leaves the AST unchanged — the state's `ast` field
(each of whose nineteen components is every field of the document) is equal
before and after the whole check battery. -/
theorem claim_C7 (s r : VState) (h : runValidate s = some r) : r.ast = s.ast :=
  runValidate_ast h

theorem claim_C7_witness :
    ∃ r, runValidate ⟨{}, [], []⟩ = some r ∧ r.ast = ({} : ROIDSLAST) := by
  refine ⟨_, rfl, ?_⟩
  exact claim_C7 ⟨{}, [], []⟩ _ rfl

/-- C3 (amended): the `METRIC` numeral grammar `[\d.]+` admits no sign, so a
negative literal such as `-0.5` fails the parse (see the counterexample);
consequently every metric of a parser-produced AST has a nonnegative value and
the validator's negative-value warning branch contributes nothing for it. -/
theorem claim_C3 (text : String) (ast : ROIDSLAST) (h : parse text = .ok ast) :
    ∀ m ∈ ast.metrics, 0 ≤ m.value ∧ metricNegWarn m = [] := by
  have hi := parse_ok_inv h
  intro m hm
  have hv := hi.metricsVal m hm
  refine ⟨hv, ?_⟩
  unfold metricNegWarn
  rw [if_neg (not_lt.2 hv)]

/-- C3, counterexample to the claim as stated: the negative literal is
rejected with a `SyntaxError`, so no Metric is appended. -/
theorem claim_C3_cx :
    parse "METRIC Risk: -0.5" =
      .error (.synErr "Invalid METRIC syntax: METRIC Risk: -0.5") := rfl

theorem claim_C3_witness :
    0 ≤ (decimalRat 0 7 1 : ℚ) ∧ metricNegWarn ⟨"Risk", decimalRat 0 7 1⟩ = [] :=
  claim_C3 "METRIC Risk: 0.7" { metrics := [⟨"Risk", decimalRat 0 7 1⟩] } rfl
    ⟨"Risk", decimalRat 0 7 1⟩ (by simp)

/-- C8: the three-line scenario parses to exactly one Goal `Cost`, one Metric
`Risk` valued 0.7, and output `MintSite`, and validates with zero errors and
some warnings including the absent-Persona warning. -/
theorem claim_C8 :
    ∃ ast, parse "GOAL Cost: \"Avoid $2M/mo burn\"\nMETRIC Risk: 0.7\nOUTPUT MintSite" =
        .ok ast ∧
      ast.goals = [⟨"Cost", "Avoid $2M/mo burn"⟩] ∧
      ast.metrics = [⟨"Risk", (0.7 : ℚ)⟩] ∧
      ast.output = some "MintSite" ∧
      ∃ ws, validate ast = some ([], ws) ∧ "PERSONA is recommended but not mandatory" ∈ ws := by
  refine ⟨{ goals := [⟨"Cost", "Avoid $2M/mo burn"⟩],
            metrics := [⟨"Risk", decimalRat 0 7 1⟩],
            output := some "MintSite" }, rfl, rfl, ?_, rfl, ?_⟩
  · have : decimalRat 0 7 1 = (0.7 : ℚ) := by
      rw [decimalRat_eq]
      norm_num
    rw [this]
  · exact ⟨["PERSONA is recommended but not mandatory",
      "MintSite output works best with PERSONA defined",
      "MintSite output can use VARIANTs for page variants"], rfl, by simp⟩

/-- C9: `OUTPUT <Kind>` with an identifier kind sets the AST's output when
the kind belongs to the closed six-element vocabulary, and otherwise fails
with a `SyntaxError` naming the invalid kind and enumerating all six valid
kinds. -/
theorem claim_C9 (k : String) (hk : k.data ≠ [])
    (hw : ∀ c ∈ k.data, isWordChar c = true) :
    (k ∈ validOutputs → parse ("OUTPUT " ++ k) = .ok { output := some k }) ∧
    (k ∉ validOutputs → parse ("OUTPUT " ++ k) =
      .error (.synErr ("Invalid OUTPUT type '" ++ k ++
        "'. Must be one of: SMS_CAMPAIGN, AGENT, RMetrics, vROI, MintSite, SK_SKILL"))) := by
  have hline : chars ("OUTPUT " ++ k) =
      'O' :: 'U' :: 'T' :: 'P' :: 'U' :: 'T' :: ' ' :: k.data := rfl
  rcases List.eq_nil_or_concat k.data with hnil | ⟨L, b, hLb⟩
  · exact absurd hnil hk
  have hbw : isWordChar b = true := hw b (by rw [hLb]; simp)
  have hnl : ∀ c ∈ chars ("OUTPUT " ++ k), c ≠ '\n' := by
    rw [hline]
    intro c hc
    simp only [List.mem_cons] at hc
    rcases hc with h | h | h | h | h | h | h | h
    · subst h; decide
    · subst h; decide
    · subst h; decide
    · subst h; decide
    · subst h; decide
    · subst h; decide
    · subst h; decide
    · exact word_ne_nl (hw c h)
  have hstrip : pyStrip (chars ("OUTPUT " ++ k)) = chars ("OUTPUT " ++ k) := by
    have hrev : (chars ("OUTPUT " ++ k)).reverse =
        b :: (L.reverse ++ (chars "OUTPUT ").reverse) := by
      rw [show chars ("OUTPUT " ++ k) = chars "OUTPUT " ++ k.data from rfl, hLb]
      simp [List.reverse_append]
    have h1 : List.dropWhile isPySpace (chars ("OUTPUT " ++ k)) = chars ("OUTPUT " ++ k) := by
      refine dropWhile_head_eq_self ?_
      rw [hline]
      intro c hc
      injection hc with hc
      subst hc
      decide
    have h2 : List.dropWhile isPySpace ((chars ("OUTPUT " ++ k)).reverse) =
        (chars ("OUTPUT " ++ k)).reverse := by
      rw [hrev, List.dropWhile_cons, word_not_space hbw]
      simp
    unfold pyStrip
    rw [h1, h2, List.reverse_reverse]
  have hlines : pyLines (chars ("OUTPUT " ++ k)) = [chars ("OUTPUT " ++ k)] := by
    unfold pyLines
    rw [splitOnNl_single hnl, List.map_cons, List.map_nil, hstrip]
    rw [List.filter_cons]
    rw [show (decide (chars ("OUTPUT " ++ k) ≠ [])) = true from by
      rw [hline]; simp]
    rfl
  have hdw : List.dropWhile isPySpace k.data = k.data := by
    refine dropWhile_head_eq_self ?_
    intro c hc
    refine word_not_space (hw c ?_)
    cases hd : k.data with
    | nil => rw [hd] at hc; exact Option.noConfusion hc
    | cons c0 cs0 =>
      rw [hd] at hc
      injection hc with hc
      subst hc
      simp
  have htw : List.takeWhile isWordChar k.data = k.data := takeWhile_eq_self hw
  have hmatch : matchOutput (' ' :: k.data) = some k.data := by
    unfold matchOutput
    dsimp only
    rw [if_pos (show isPySpace ' ' = true from rfl)]
    rw [List.dropWhile_cons]
    rw [if_pos (show isPySpace ' ' = true from rfl)]
    rw [hdw, htw, if_neg hk]
  have hpo : parseOutput (chars ("OUTPUT " ++ k)) {} =
      if k ∈ validOutputs then .ok { output := some k }
      else .error (.synErr ("Invalid OUTPUT type '" ++ k ++
        "'. Must be one of: SMS_CAMPAIGN, AGENT, RMetrics, vROI, MintSite, SK_SKILL")) := by
    unfold parseOutput
    rw [show stripLit (chars "OUTPUT") (chars ("OUTPUT " ++ k)) =
      some (' ' :: k.data) from rfl]
    rw [show (some (' ' :: k.data) >>= matchOutput) = matchOutput (' ' :: k.data) from rfl,
      hmatch]
  have hstep : ∀ a : ROIDSLAST, parseStep 0 (chars ("OUTPUT " ++ k)) a =
      parseOutput (chars ("OUTPUT " ++ k)) a := fun a => rfl
  have hparse : parse ("OUTPUT " ++ k) =
      if k ∈ validOutputs then .ok { output := some k }
      else .error (.synErr ("Invalid OUTPUT type '" ++ k ++
        "'. Must be one of: SMS_CAMPAIGN, AGENT, RMetrics, vROI, MintSite, SK_SKILL")) := by
    unfold parse
    rw [hlines]
    unfold parseGo
    rw [hstep, hpo]
    by_cases hm : k ∈ validOutputs
    · rw [if_pos hm]
      rfl
    · rw [if_neg hm]
  exact ⟨fun hm => by rw [hparse, if_pos hm], fun hm => by rw [hparse, if_neg hm]⟩

theorem claim_C9_witness :
    ("Widget" : String) ∉ validOutputs ∧
      parse "OUTPUT Widget" = .error (.synErr ("Invalid OUTPUT type '" ++ "Widget" ++
        "'. Must be one of: SMS_CAMPAIGN, AGENT, RMetrics, vROI, MintSite, SK_SKILL")) :=
  ⟨by decide,
    (claim_C9 "Widget" (by decide) (by decide)).2 (by decide)⟩

/-- C10: every quoted value captured by the parser comes from a `"([^"]+)"`
group and is therefore nonempty (an empty pair of quotes is a `SyntaxError`,
final conjunct), so the validator's empty-value error branches for persona,
goal and variant contribute nothing on parser-produced ASTs. -/
theorem claim_C10 :
    (∀ (text : String) (ast : ROIDSLAST), parse text = .ok ast →
      (∀ p, ast.persona = some p → p.value ≠ "" ∧ personaEmptyErr p = []) ∧
      (∀ p ∈ ast.personas, p.value ≠ "") ∧
      (∀ g ∈ ast.goals, g.value ≠ "" ∧ goalEmptyErr g = []) ∧
      (∀ v ∈ ast.variants, v.value ≠ "" ∧ variantEmptyErr v = []) ∧
      (∀ r ∈ ast.rmetrics, r.expr ≠ "") ∧
      (∀ t ∈ ast.sk_tags, t ≠ "") ∧
      (∀ kv ∈ ast.credentials ++ ast.case_studies ++ ast.services ++ ast.training ++
          ast.vroi_inputs ++ ast.vroi_outputs ++ ast.stats ++ ast.microtraining ++
          ast.seo ++ ast.contact, kv.2 ≠ "")) ∧
    parse "GOAL X: \"\"" = .error (.synErr "Invalid GOAL syntax: GOAL X: \"\"") := by
  constructor
  · intro text ast h
    have hi := parse_ok_inv h
    refine ⟨?_, hi.personasVal, ?_, ?_, hi.rmetricsExpr, hi.tagsVal, ?_⟩
    · intro p hp
      have hv := hi.personaVal p hp
      exact ⟨hv, by unfold personaEmptyErr; rw [if_neg hv]⟩
    · intro g hg
      have hv := hi.goalsVal g hg
      exact ⟨hv, by unfold goalEmptyErr; rw [if_neg hv]⟩
    · intro v hv
      have hv2 := hi.variantsVal v hv
      exact ⟨hv2, by unfold variantEmptyErr; rw [if_neg hv2]⟩
    · intro kv hkv
      simp only [List.mem_append] at hkv
      rcases hkv with ((((((((h1 | h1) | h1) | h1) | h1) | h1) | h1) | h1) | h1) | h1
      exacts [hi.credVal kv h1, hi.caseVal kv h1, hi.servVal kv h1, hi.trainVal kv h1,
        hi.vinVal kv h1, hi.voutVal kv h1, hi.statsVal kv h1, hi.microVal kv h1,
        hi.seoVal kv h1, hi.contactVal kv h1]
  · rfl

theorem claim_C10_witness :
    ("CEO" : String) ≠ "" ∧ personaEmptyErr ⟨"P", "CEO"⟩ = [] :=
  (claim_C10.1 "PERSONA P: \"CEO\"" { persona := some ⟨"P", "CEO"⟩, personas := [⟨"P", "CEO"⟩] }
    rfl).1 ⟨"P", "CEO"⟩ rfl

end ROIDSL
